import Mathlib

/-!
Shallow embedding of `src/lib/appwrite/api.ts` (Snapy).

The file under verification is a set of asynchronous wrapper functions over
the Appwrite SDK (`account`, `databases`, `storage`, `avatars`).  Each SDK
endpoint is modelled by an `Env` field giving the outcome of the remote call:
the promise may reject (`throw`) or resolve with `null`, `undefined`, or a
proper (truthy) response object.  Each wrapper is embedded as a Lean function
from an `Env` and its arguments to a `RunResult`, recording

  * `result` — the value the async function settles with: `retd v` when it
    returns `v` normally, `thrown e` when an exception escapes to the caller;
  * `trace`  — the list of remote SDK calls issued, in order, with their
    arguments (local URL builders `avatars.getInitials` and
    `storage.getFilePreview` are synchronous URL constructions in the web SDK
    and are not remote calls, so they are not traced);
  * `logs`   — the values passed to `console.log` by `catch` blocks.

JavaScript semantics used: `!x` tests falsiness (`undefined`/`null` falsy,
objects truthy); a bare `throw Error` throws the `Error` constructor, modelled
as the opaque value `Value.error`; `xs[0]` on an empty array is `undefined`;
`s.replace(/ /g, "")` removes every space character; `s.split(",")` splits on
commas, giving `[""]` on the empty string (Lean's `String.splitOn ","` has
exactly these semantics); a number is truthy iff it is nonzero.
-/

namespace Snapy

/-- An Appwrite account object (the fields the code reads: `$id`, `name`,
`email`). -/
structure Account where
  id : String
  name : String
  email : String
deriving Repr, DecidableEq

/-- An Appwrite storage file object (the code reads only `$id`). -/
structure FileRes where
  id : String
deriving Repr, DecidableEq

/-- A document returned by the databases service, treated as opaque. -/
abbrev Document := String

/-- A `listDocuments` response: an object with a `documents` array. -/
structure DocList where
  documents : List Document
deriving Repr, DecidableEq

/-- The `Query` helpers used by the code (`Query.equal`, `Query.search`,
`Query.orderDesc`, `Query.limit`, `Query.cursorAfter`). -/
inductive Query where
  | equal (field value : String)
  | search (field value : String)
  | orderDesc (field : String)
  | limit (n : Int)
  | cursorAfter (cursor : String)
deriving Repr, DecidableEq

/-- The document payloads the code passes to `createDocument` /
`updateDocument`, field for field. -/
inductive DocPayload where
  | userDoc (accountId name email : String) (username : Option String) (imageUrl : String)
  | postDoc (creator caption imageUrl imageId location : String) (tags : List String)
  | postUpdateDoc (caption imageUrl imageId location : String) (tags : List String)
  | likesDoc (likes : List String)
  | saveDoc (user post : String)
  | userUpdateDoc (name bio imageUrl imageId : String)
deriving Repr, DecidableEq

/-- The JavaScript values these functions return or throw: `undefined`,
`null`, the `Error` constructor thrown by the bare `throw Error` statements,
and the SDK response objects (plus the `{ status: s }` objects the code
builds itself). -/
inductive Value where
  | undef
  | null
  | error
  | account (a : Account)
  | session (s : String)
  | doc (d : Document)
  | docList (l : DocList)
  | file (f : FileRes)
  | url (u : String)
  | statusObj (s : String)
deriving Repr, DecidableEq

/-- Outcome of one SDK call: the promise rejects with `e`, or resolves with
`null`, `undefined`, or a proper response object of type `α`. -/
inductive Res (α : Type) where
  | throw (e : Value)
  | nil
  | undef
  | ok (a : α)
deriving Repr, DecidableEq

/-- A remote SDK call together with the arguments the code passes
(`ID.unique()` arguments and the raw `File` object are omitted: they are
fresh/opaque values the claims never mention). -/
inductive RemoteCall where
  | accountCreate (email password name : String)
  | accountGet
  | createEmailPasswordSession (email password : String)
  | deleteSession (sessionId : String)
  | createDocument (databaseId collectionId : String) (data : DocPayload)
  | listDocuments (databaseId collectionId : String) (queries : List Query)
  | getDocument (databaseId collectionId documentId : String)
  | updateDocument (databaseId collectionId documentId : String) (data : DocPayload)
  | deleteDocument (databaseId collectionId documentId : String)
  | createFile (storageId : String)
  | deleteFile (storageId fileId : String)
deriving Repr, DecidableEq

/-- How an exported async function settles from the caller's point of view:
a normal return value, or an exception propagated out. -/
inductive Settled where
  | retd (v : Value)
  | thrown (e : Value)
deriving Repr, DecidableEq

/-- Result of running one exported function: settled value, trace of remote
calls, and values logged by `catch` blocks. -/
structure RunResult where
  result : Settled
  trace : List RemoteCall
  logs : List Value
deriving Repr, DecidableEq

/-- `appwriteConfig` (ids come from environment variables; opaque here). -/
structure AppwriteConfig where
  databaseId : String
  userCollectionId : String
  postCollectionId : String
  savesCollectionId : String
  storageId : String
deriving Repr, DecidableEq

/-- The environment: one outcome per SDK endpoint, keyed by the arguments
that distinguish calls within a single run.  `getInitials` and
`getFilePreview` are the synchronous URL builders. -/
structure Env where
  config : AppwriteConfig
  accountCreate : Res Account
  accountGet : Res Account
  createEmailPasswordSession : Res String
  deleteSession : Res String
  createDocument : String → DocPayload → Res Document
  listDocuments : String → List Query → Res DocList
  getDocument : String → String → Res Document
  updateDocument : String → String → DocPayload → Res Document
  deleteDocument : String → String → Res Document
  createFile : Res FileRes
  deleteFile : String → Res Document
  getInitials : String → String
  getFilePreview : String → Res String

/-- `INewUser` from `@/types`: the fields `createUserAccount` reads. -/
structure INewUser where
  name : String
  email : String
  password : String
  username : Option String
deriving Repr, DecidableEq

/-- `INewPost`: the fields `createPost` reads.  `file` is the file array
(only its first element / emptiness matter; file contents are opaque). -/
structure INewPost where
  userId : String
  caption : String
  file : List String
  location : String
  tags : Option String
deriving Repr, DecidableEq

/-- `IUpdatePost`: the fields `updatePost` reads. -/
structure IUpdatePost where
  postId : String
  caption : String
  imageId : String
  imageUrl : String
  file : List String
  location : String
  tags : Option String
deriving Repr, DecidableEq

/-- `IUpdateUser`: the fields `updateUser` reads. -/
structure IUpdateUser where
  userId : String
  name : String
  bio : String
  imageId : String
  imageUrl : String
  file : List String
deriving Repr, DecidableEq

/-- JS falsiness of an optional string argument (`undefined` or `""`). -/
def falsyOptStr : Option String → Bool
  | none => true
  | some s => s = ""

/-- `uploadFile(file)` — `storage.createFile` then return the uploaded file;
`catch` logs and returns `undefined`. -/
def uploadFile (env : Env) : RunResult :=
  let c := [RemoteCall.createFile env.config.storageId]
  match env.createFile with
  | .throw e => ⟨.retd .undef, c, [e]⟩
  | .nil => ⟨.retd .null, c, []⟩
  | .undef => ⟨.retd .undef, c, []⟩
  | .ok f => ⟨.retd (.file f), c, []⟩

/-- `getFilePreview(fileId)` — synchronous `storage.getFilePreview`; a falsy
URL triggers `throw Error`, caught and logged, returning `undefined`. -/
def getFilePreview (env : Env) (fileId : String) : Value × List Value :=
  match env.getFilePreview fileId with
  | .throw e => (.undef, [e])
  | .nil => (.undef, [.error])
  | .undef => (.undef, [.error])
  | .ok u => (.url u, [])

/-- `deleteFile(fileId)` — `storage.deleteFile`, result unchecked, then
return `{ status: "ok" }`; `catch` logs and returns `undefined`. -/
def deleteFile (env : Env) (fileId : String) : RunResult :=
  let c := [RemoteCall.deleteFile env.config.storageId fileId]
  match env.deleteFile fileId with
  | .throw e => ⟨.retd .undef, c, [e]⟩
  | _ => ⟨.retd (.statusObj "ok"), c, []⟩

/-- `saveUserToDB(user)` — `databases.createDocument` into the user
collection; the result is returned unchecked (a falsy resolution is
forwarded as is); `catch` logs and returns `undefined`. -/
def saveUserToDB (env : Env) (accountId name email : String)
    (username : Option String) (imageUrl : String) : RunResult :=
  let data := DocPayload.userDoc accountId name email username imageUrl
  let c := [RemoteCall.createDocument env.config.databaseId
    env.config.userCollectionId data]
  match env.createDocument env.config.userCollectionId data with
  | .throw e => ⟨.retd .undef, c, [e]⟩
  | .nil => ⟨.retd .null, c, []⟩
  | .undef => ⟨.retd .undef, c, []⟩
  | .ok d => ⟨.retd (.doc d), c, []⟩

/-- `createUserAccount(user)` — `account.create`, falsiness check,
`avatars.getInitials`, then `saveUserToDB`; the `catch` block logs and
RETURNS the caught error value. -/
def createUserAccount (env : Env) (user : INewUser) : RunResult :=
  let c := [RemoteCall.accountCreate user.email user.password user.name]
  match env.accountCreate with
  | .throw e => ⟨.retd e, c, [e]⟩
  | .nil => ⟨.retd .error, c, [.error]⟩
  | .undef => ⟨.retd .error, c, [.error]⟩
  | .ok acc =>
    let avatarUrl := env.getInitials user.name
    let save := saveUserToDB env acc.id acc.name acc.email user.username avatarUrl
    ⟨save.result, c ++ save.trace, save.logs⟩

/-- `signInAccount(user)` — `account.createEmailPasswordSession`, session
returned unchecked; `catch` logs and returns `undefined`. -/
def signInAccount (env : Env) (email password : String) : RunResult :=
  let c := [RemoteCall.createEmailPasswordSession email password]
  match env.createEmailPasswordSession with
  | .throw e => ⟨.retd .undef, c, [e]⟩
  | .nil => ⟨.retd .null, c, []⟩
  | .undef => ⟨.retd .undef, c, []⟩
  | .ok s => ⟨.retd (.session s), c, []⟩

/-- `getAccount()` — `account.get`, returned unchecked; `catch` logs and
returns `undefined`. -/
def getAccount (env : Env) : RunResult :=
  let c := [RemoteCall.accountGet]
  match env.accountGet with
  | .throw e => ⟨.retd .undef, c, [e]⟩
  | .nil => ⟨.retd .null, c, []⟩
  | .undef => ⟨.retd .undef, c, []⟩
  | .ok a => ⟨.retd (.account a), c, []⟩

/-- `getCurrentUser()` — `getAccount`, falsiness check, `listDocuments` on
the user collection filtered by `accountId`, falsiness check, then
`currentUser.documents[0]` (which is `undefined` on an empty array); the
`catch` block logs and returns `null`. -/
def getCurrentUser (env : Env) : RunResult :=
  let ga := getAccount env
  match ga.result with
  | .retd (.account acc) =>
    let qs := [Query.equal "accountId" acc.id]
    let c := [RemoteCall.listDocuments env.config.databaseId
      env.config.userCollectionId qs]
    match env.listDocuments env.config.userCollectionId qs with
    | .throw e => ⟨.retd .null, ga.trace ++ c, ga.logs ++ [e]⟩
    | .nil => ⟨.retd .null, ga.trace ++ c, ga.logs ++ [.error]⟩
    | .undef => ⟨.retd .null, ga.trace ++ c, ga.logs ++ [.error]⟩
    | .ok l =>
      match l.documents with
      | [] => ⟨.retd .undef, ga.trace ++ c, ga.logs⟩
      | d :: _ => ⟨.retd (.doc d), ga.trace ++ c, ga.logs⟩
  | _ => ⟨.retd .null, ga.trace, ga.logs ++ [.error]⟩

/-- `signOutAccount()` — `account.deleteSession("current")`, returned
unchecked; `catch` logs and returns `undefined`. -/
def signOutAccount (env : Env) : RunResult :=
  let c := [RemoteCall.deleteSession "current"]
  match env.deleteSession with
  | .throw e => ⟨.retd .undef, c, [e]⟩
  | .nil => ⟨.retd .null, c, []⟩
  | .undef => ⟨.retd .undef, c, []⟩
  | .ok s => ⟨.retd (.session s), c, []⟩

/-- JavaScript `s.split(",")` on the character list of `s`: splitting the
empty string gives `[""]`, and each comma starts a new (possibly empty)
piece. -/
def splitOnComma : List Char → List (List Char)
  | [] => [[]]
  | ch :: rest =>
    if ch = ',' then [] :: splitOnComma rest
    else
      match splitOnComma rest with
      | t :: ts => (ch :: t) :: ts
      | [] => [[ch]]

/-- The tag conversion in `createPost` (line 131):
`post.tags?.replace(/ /g, "").split(",") || []`.  The regex replace removes
every space character; when `tags` is nullish the optional chain yields
`undefined` and `|| []` gives `[]` (a split result is an array, always
truthy, so `|| []` never fires on it). -/
def createPostTags : Option String → List String
  | none => []
  | some t => (splitOnComma (t.data.filter (fun ch => !(ch = ' ')))).map String.mk

/-- The tag conversion in `updatePost` (line 289), textually identical to the
one in `createPost`. -/
def updatePostTags : Option String → List String
  | none => []
  | some t => (splitOnComma (t.data.filter (fun ch => !(ch = ' ')))).map String.mk

/-- `createPost(post)` — upload the file, build the preview URL (deleting
the uploaded file when the URL is falsy), parse tags, create the post
document (deleting the uploaded file when the document resolves falsy); the
`catch` block logs and returns `undefined`.  A rejection of
`databases.createDocument` jumps straight to `catch`. -/
def createPost (env : Env) (post : INewPost) : RunResult :=
  let up := uploadFile env
  match up.result with
  | .retd (.file f) =>
    match getFilePreview env f.id with
    | (.url u, pl) =>
      let tags := createPostTags post.tags
      let data := DocPayload.postDoc post.userId post.caption u f.id post.location tags
      let c := [RemoteCall.createDocument env.config.databaseId
        env.config.postCollectionId data]
      match env.createDocument env.config.postCollectionId data with
      | .throw e => ⟨.retd .undef, up.trace ++ c, up.logs ++ pl ++ [e]⟩
      | .nil =>
        let df := deleteFile env f.id
        ⟨.retd .undef, up.trace ++ c ++ df.trace, up.logs ++ pl ++ df.logs ++ [.error]⟩
      | .undef =>
        let df := deleteFile env f.id
        ⟨.retd .undef, up.trace ++ c ++ df.trace, up.logs ++ pl ++ df.logs ++ [.error]⟩
      | .ok d => ⟨.retd (.doc d), up.trace ++ c, up.logs ++ pl⟩
    | (_, pl) =>
      let df := deleteFile env f.id
      ⟨.retd .undef, up.trace ++ df.trace, up.logs ++ pl ++ df.logs ++ [.error]⟩
  | _ => ⟨.retd .undef, up.trace, up.logs ++ [.error]⟩

/-- `searchPosts(searchTerm)` — `listDocuments` on the post collection with
a caption search query; `catch` logs and returns `undefined`. -/
def searchPosts (env : Env) (searchTerm : String) : RunResult :=
  let qs := [Query.search "caption" searchTerm]
  let c := [RemoteCall.listDocuments env.config.databaseId
    env.config.postCollectionId qs]
  match env.listDocuments env.config.postCollectionId qs with
  | .throw e => ⟨.retd .undef, c, [e]⟩
  | .nil => ⟨.retd .undef, c, [.error]⟩
  | .undef => ⟨.retd .undef, c, [.error]⟩
  | .ok l => ⟨.retd (.docList l), c, []⟩

/-- The query list `getInfinitePosts` builds: always
`orderDesc("$updatedAt")` and `limit(9)`; `cursorAfter(pageParam.toString())`
is pushed exactly when the number `pageParam` is truthy (nonzero). -/
def getInfinitePostsQueries (pageParam : Int) : List Query :=
  let queries := [Query.orderDesc "$updatedAt", Query.limit 9]
  if pageParam ≠ 0 then queries ++ [Query.cursorAfter (toString pageParam)]
  else queries

/-- `getInfinitePosts({ pageParam })` — `listDocuments` on the post
collection with `getInfinitePostsQueries`; `catch` logs and returns
`undefined`. -/
def getInfinitePosts (env : Env) (pageParam : Int) : RunResult :=
  let qs := getInfinitePostsQueries pageParam
  let c := [RemoteCall.listDocuments env.config.databaseId
    env.config.postCollectionId qs]
  match env.listDocuments env.config.postCollectionId qs with
  | .throw e => ⟨.retd .undef, c, [e]⟩
  | .nil => ⟨.retd .undef, c, [.error]⟩
  | .undef => ⟨.retd .undef, c, [.error]⟩
  | .ok l => ⟨.retd (.docList l), c, []⟩

/-- `getPostById(postId?)` — `if (!postId) throw Error;` stands BEFORE the
`try`, so a falsy `postId` rejects the returned promise (the exception
propagates to the caller); otherwise `getDocument` on the post collection;
`catch` logs and returns `undefined`. -/
def getPostById (env : Env) (postId? : Option String) : RunResult :=
  if falsyOptStr postId? then ⟨.thrown .error, [], []⟩
  else
    let postId := postId?.getD ""
    let c := [RemoteCall.getDocument env.config.databaseId
      env.config.postCollectionId postId]
    match env.getDocument env.config.postCollectionId postId with
    | .throw e => ⟨.retd .undef, c, [e]⟩
    | .nil => ⟨.retd .undef, c, [.error]⟩
    | .undef => ⟨.retd .undef, c, [.error]⟩
    | .ok d => ⟨.retd (.doc d), c, []⟩

/-- The tail of `updatePost` from the `updateDocument` call on: on a falsy
`updatedPost`, delete the (possibly new) `image.imageId` when a new file was
uploaded, then `throw`; on success, delete the old `post.imageId` when a new
file was uploaded, then return the updated document.  `imageUrl`/`imageId`
are the fields of the local `image` object at that point; `t0`/`l0` the
trace and logs accumulated before the call. -/
def updatePostTail (env : Env) (post : IUpdatePost) (imageUrl imageId : String)
    (hasFile : Bool) (t0 : List RemoteCall) (l0 : List Value) : RunResult :=
  let tags := updatePostTags post.tags
  let data := DocPayload.postUpdateDoc post.caption imageUrl imageId post.location tags
  let c := [RemoteCall.updateDocument env.config.databaseId
    env.config.postCollectionId post.postId data]
  match env.updateDocument env.config.postCollectionId post.postId data with
  | .throw e => ⟨.retd .undef, t0 ++ c, l0 ++ [e]⟩
  | .nil =>
    if hasFile then
      let df := deleteFile env imageId
      ⟨.retd .undef, t0 ++ c ++ df.trace, l0 ++ df.logs ++ [.error]⟩
    else ⟨.retd .undef, t0 ++ c, l0 ++ [.error]⟩
  | .undef =>
    if hasFile then
      let df := deleteFile env imageId
      ⟨.retd .undef, t0 ++ c ++ df.trace, l0 ++ df.logs ++ [.error]⟩
    else ⟨.retd .undef, t0 ++ c, l0 ++ [.error]⟩
  | .ok d =>
    if hasFile then
      let df := deleteFile env post.imageId
      ⟨.retd (.doc d), t0 ++ c ++ df.trace, l0 ++ df.logs⟩
    else ⟨.retd (.doc d), t0 ++ c, l0⟩

/-- `updatePost(post)` — when `post.file` is non-empty, upload the new file
and build its preview URL (deleting the new file and bailing out when the
URL is falsy), then run the update tail with the new image; otherwise run
the tail with the old image unchanged.  A rejection of
`databases.updateDocument` jumps straight to `catch` (no cleanup). -/
def updatePost (env : Env) (post : IUpdatePost) : RunResult :=
  let hasFileToUpdate := post.file.length > 0
  if hasFileToUpdate then
    let up := uploadFile env
    match up.result with
    | .retd (.file f) =>
      match getFilePreview env f.id with
      | (.url u, pl) => updatePostTail env post u f.id true up.trace (up.logs ++ pl)
      | (_, pl) =>
        let df := deleteFile env f.id
        ⟨.retd .undef, up.trace ++ df.trace, up.logs ++ pl ++ df.logs ++ [.error]⟩
    | _ => ⟨.retd .undef, up.trace, up.logs ++ [.error]⟩
  else
    updatePostTail env post post.imageUrl post.imageId false [] []

/-- `deletePost(postId?, imageId?)` — guard `if (!postId || !imageId)
return;` before the `try`; then `deleteDocument` on the post collection,
falsiness check, `deleteFile(imageId)` (result unchecked), and return
`{ status: "Ok" }`; `catch` logs and returns `undefined`. -/
def deletePost (env : Env) (postId? imageId? : Option String) : RunResult :=
  if falsyOptStr postId? || falsyOptStr imageId? then ⟨.retd .undef, [], []⟩
  else
    let postId := postId?.getD ""
    let imageId := imageId?.getD ""
    let c := [RemoteCall.deleteDocument env.config.databaseId
      env.config.postCollectionId postId]
    match env.deleteDocument env.config.postCollectionId postId with
    | .throw e => ⟨.retd .undef, c, [e]⟩
    | .nil => ⟨.retd .undef, c, [.error]⟩
    | .undef => ⟨.retd .undef, c, [.error]⟩
    | .ok _ =>
      let df := deleteFile env imageId
      ⟨.retd (.statusObj "Ok"), c ++ df.trace, df.logs⟩

/-- `likePost(postId, likesArray)` — `updateDocument` with a `likes`
payload, falsiness check; `catch` logs and returns `undefined`. -/
def likePost (env : Env) (postId : String) (likesArray : List String) : RunResult :=
  let data := DocPayload.likesDoc likesArray
  let c := [RemoteCall.updateDocument env.config.databaseId
    env.config.postCollectionId postId data]
  match env.updateDocument env.config.postCollectionId postId data with
  | .throw e => ⟨.retd .undef, c, [e]⟩
  | .nil => ⟨.retd .undef, c, [.error]⟩
  | .undef => ⟨.retd .undef, c, [.error]⟩
  | .ok d => ⟨.retd (.doc d), c, []⟩

/-- `savePost(userId, postId)` — `createDocument` into the saves collection,
falsiness check; `catch` logs and returns `undefined`. -/
def savePost (env : Env) (userId postId : String) : RunResult :=
  let data := DocPayload.saveDoc userId postId
  let c := [RemoteCall.createDocument env.config.databaseId
    env.config.savesCollectionId data]
  match env.createDocument env.config.savesCollectionId data with
  | .throw e => ⟨.retd .undef, c, [e]⟩
  | .nil => ⟨.retd .undef, c, [.error]⟩
  | .undef => ⟨.retd .undef, c, [.error]⟩
  | .ok d => ⟨.retd (.doc d), c, []⟩

/-- `deleteSavedPost(savedRecordId)` — `deleteDocument` on the saves
collection, falsiness check, return `{ status: "Ok" }`; `catch` logs and
returns `undefined`. -/
def deleteSavedPost (env : Env) (savedRecordId : String) : RunResult :=
  let c := [RemoteCall.deleteDocument env.config.databaseId
    env.config.savesCollectionId savedRecordId]
  match env.deleteDocument env.config.savesCollectionId savedRecordId with
  | .throw e => ⟨.retd .undef, c, [e]⟩
  | .nil => ⟨.retd .undef, c, [.error]⟩
  | .undef => ⟨.retd .undef, c, [.error]⟩
  | .ok _ => ⟨.retd (.statusObj "Ok"), c, []⟩

/-- `getUserPosts(userId?)` — guard `if (!userId) return;` before the `try`;
then `listDocuments` on the post collection filtered by creator; `catch`
logs and returns `undefined`. -/
def getUserPosts (env : Env) (userId? : Option String) : RunResult :=
  if falsyOptStr userId? then ⟨.retd .undef, [], []⟩
  else
    let userId := userId?.getD ""
    let qs := [Query.equal "creator" userId, Query.orderDesc "$createdAt"]
    let c := [RemoteCall.listDocuments env.config.databaseId
      env.config.postCollectionId qs]
    match env.listDocuments env.config.postCollectionId qs with
    | .throw e => ⟨.retd .undef, c, [e]⟩
    | .nil => ⟨.retd .undef, c, [.error]⟩
    | .undef => ⟨.retd .undef, c, [.error]⟩
    | .ok l => ⟨.retd (.docList l), c, []⟩

/-- `getRecentPosts()` — `listDocuments` on the post collection ordered by
`$createdAt` with `limit(20)`; `catch` logs and returns `undefined`. -/
def getRecentPosts (env : Env) : RunResult :=
  let qs := [Query.orderDesc "$createdAt", Query.limit 20]
  let c := [RemoteCall.listDocuments env.config.databaseId
    env.config.postCollectionId qs]
  match env.listDocuments env.config.postCollectionId qs with
  | .throw e => ⟨.retd .undef, c, [e]⟩
  | .nil => ⟨.retd .undef, c, [.error]⟩
  | .undef => ⟨.retd .undef, c, [.error]⟩
  | .ok l => ⟨.retd (.docList l), c, []⟩

/-- The query list `getUsers` builds: `orderDesc("$createdAt")`, plus
`limit(limit)` pushed exactly when the optional number `limit` is truthy
(present and nonzero). -/
def getUsersQueries (lim : Option Int) : List Query :=
  let queries := [Query.orderDesc "$createdAt"]
  match lim with
  | some n => if n ≠ 0 then queries ++ [Query.limit n] else queries
  | none => queries

/-- `getUsers(limit?)` — `listDocuments` on the user collection with
`getUsersQueries`; `catch` logs and returns `undefined`. -/
def getUsers (env : Env) (lim : Option Int) : RunResult :=
  let qs := getUsersQueries lim
  let c := [RemoteCall.listDocuments env.config.databaseId
    env.config.userCollectionId qs]
  match env.listDocuments env.config.userCollectionId qs with
  | .throw e => ⟨.retd .undef, c, [e]⟩
  | .nil => ⟨.retd .undef, c, [.error]⟩
  | .undef => ⟨.retd .undef, c, [.error]⟩
  | .ok l => ⟨.retd (.docList l), c, []⟩

/-- `getUserById(userId)` — `getDocument` on the user collection, falsiness
check; `catch` logs and returns `undefined`. -/
def getUserById (env : Env) (userId : String) : RunResult :=
  let c := [RemoteCall.getDocument env.config.databaseId
    env.config.userCollectionId userId]
  match env.getDocument env.config.userCollectionId userId with
  | .throw e => ⟨.retd .undef, c, [e]⟩
  | .nil => ⟨.retd .undef, c, [.error]⟩
  | .undef => ⟨.retd .undef, c, [.error]⟩
  | .ok d => ⟨.retd (.doc d), c, []⟩

/-- The tail of `updateUser` from the `updateDocument` call on: mirrors
`updatePostTail`, except the final delete of the old file additionally
requires `user.imageId` to be truthy (`if (user.imageId && hasFileToUpdate)`). -/
def updateUserTail (env : Env) (user : IUpdateUser) (imageUrl imageId : String)
    (hasFile : Bool) (t0 : List RemoteCall) (l0 : List Value) : RunResult :=
  let data := DocPayload.userUpdateDoc user.name user.bio imageUrl imageId
  let c := [RemoteCall.updateDocument env.config.databaseId
    env.config.userCollectionId user.userId data]
  match env.updateDocument env.config.userCollectionId user.userId data with
  | .throw e => ⟨.retd .undef, t0 ++ c, l0 ++ [e]⟩
  | .nil =>
    if hasFile then
      let df := deleteFile env imageId
      ⟨.retd .undef, t0 ++ c ++ df.trace, l0 ++ df.logs ++ [.error]⟩
    else ⟨.retd .undef, t0 ++ c, l0 ++ [.error]⟩
  | .undef =>
    if hasFile then
      let df := deleteFile env imageId
      ⟨.retd .undef, t0 ++ c ++ df.trace, l0 ++ df.logs ++ [.error]⟩
    else ⟨.retd .undef, t0 ++ c, l0 ++ [.error]⟩
  | .ok d =>
    if !(user.imageId = "") && hasFile then
      let df := deleteFile env user.imageId
      ⟨.retd (.doc d), t0 ++ c ++ df.trace, l0 ++ df.logs⟩
    else ⟨.retd (.doc d), t0 ++ c, l0⟩

/-- `updateUser(user)` — same shape as `updatePost` over the user
collection, with a `name`/`bio`/image payload. -/
def updateUser (env : Env) (user : IUpdateUser) : RunResult :=
  let hasFileToUpdate := user.file.length > 0
  if hasFileToUpdate then
    let up := uploadFile env
    match up.result with
    | .retd (.file f) =>
      match getFilePreview env f.id with
      | (.url u, pl) => updateUserTail env user u f.id true up.trace (up.logs ++ pl)
      | (_, pl) =>
        let df := deleteFile env f.id
        ⟨.retd .undef, up.trace ++ df.trace, up.logs ++ pl ++ df.logs ++ [.error]⟩
    | _ => ⟨.retd .undef, up.trace, up.logs ++ [.error]⟩
  else
    updateUserTail env user user.imageUrl user.imageId false [] []

/-! ### Concrete environments and inputs used by witnesses and
counterexamples -/

/-- A concrete configuration. -/
def cfg0 : AppwriteConfig := ⟨"db", "users", "posts", "saves", "bucket"⟩

/-- A fully successful environment. -/
def env0 : Env where
  config := cfg0
  accountCreate := .ok ⟨"acc1", "Alice", "alice@x.io"⟩
  accountGet := .ok ⟨"acc1", "Alice", "alice@x.io"⟩
  createEmailPasswordSession := .ok "sess1"
  deleteSession := .ok "sess1"
  createDocument := fun _ _ => .ok "doc1"
  listDocuments := fun _ _ => .ok ⟨["d1", "d2"]⟩
  getDocument := fun _ _ => .ok "doc1"
  updateDocument := fun _ _ _ => .ok "doc2"
  deleteDocument := fun _ _ => .ok "delResp"
  createFile := .ok ⟨"file1"⟩
  deleteFile := fun _ => .ok "delFileResp"
  getInitials := fun n => String.append "avatars/" n
  getFilePreview := fun fid => .ok (String.append "preview/" fid)

/-- A concrete new-user input. -/
def user0 : INewUser := ⟨"Alice", "alice@x.io", "pw", some "alice"⟩

/-- A concrete new-post input (with one file and a tag string). -/
def post0 : INewPost := ⟨"u1", "hello", ["f"], "NYC", some "a, b"⟩

/-- A concrete post-update input carrying a new file. -/
def upd0 : IUpdatePost := ⟨"p1", "cap", "oldImg", "oldUrl", ["f"], "NYC", some "a"⟩

/-- A concrete post-update input with no new file. -/
def upd1 : IUpdatePost := ⟨"p1", "cap", "oldImg", "oldUrl", [], "NYC", none⟩

/-- A concrete user-update input carrying a new file. -/
def uuser0 : IUpdateUser := ⟨"u1", "Alice", "bio", "oldImg", "oldUrl", ["f"]⟩

/-- `env0` with the account-creation endpoint rejecting. -/
def envAccThrow : Env := { env0 with accountCreate := .throw .error }

/-- `env0` with every document-creation call rejecting. -/
def envDocThrow : Env := { env0 with createDocument := fun _ _ => .throw .error }

/-- `env0` with every document-creation call resolving falsy. -/
def envDocNil : Env := { env0 with createDocument := fun _ _ => .nil }

/-- `env0` with every document-update call rejecting. -/
def envUpdThrow : Env := { env0 with updateDocument := fun _ _ _ => .throw .error }

/-- `env0` with every document-update call resolving falsy. -/
def envUpdNil : Env := { env0 with updateDocument := fun _ _ _ => .nil }

/-- `env0` with the user query returning an empty documents array. -/
def envEmptyList : Env := { env0 with listDocuments := fun _ _ => .ok ⟨[]⟩ }

/-! ### C5 — tag parsing -/

/-- Modelled from the spec claim's words: the tag string with every space
character removed, split on commas. -/
def specTagParse (t : String) : List String :=
  (splitOnComma (t.data.filter (fun ch => ch ≠ ' '))).map String.mk

/-- C5: `createPost` and `updatePost` parse the tag string identically; for
a present tag string `t` the stored tags array is `t` with every space
removed, split on commas; for an absent tag string it is empty.  The last
two conjuncts tie the parse to what is stored: any document payload carrying
tags that `createPost` (resp. `updatePost`) passes to the remote document
call carries exactly this parse of `post.tags`. -/
theorem c5_tags_parse :
    (∀ t, createPostTags t = updatePostTags t) ∧
    (∀ t : String, createPostTags (some t) = specTagParse t) ∧
    createPostTags none = [] ∧
    (∀ env post db coll creator cap url img loc tags,
      RemoteCall.createDocument db coll (DocPayload.postDoc creator cap url img loc tags)
        ∈ (createPost env post).trace → tags = createPostTags post.tags) ∧
    (∀ env post db coll docId cap url img loc tags,
      RemoteCall.updateDocument db coll docId (DocPayload.postUpdateDoc cap url img loc tags)
        ∈ (updatePost env post).trace → tags = updatePostTags post.tags) := by
  refine ⟨fun t => by cases t <;> rfl, fun t => by simp [createPostTags, specTagParse], rfl, ?_, ?_⟩
  · intro env post db coll creator cap url img loc tags
    cases h1 : env.createFile with
    | ok f =>
      cases h2 : env.getFilePreview f.id with
      | ok u =>
        cases h3 : env.createDocument env.config.postCollectionId
            (DocPayload.postDoc post.userId post.caption u f.id post.location
              (createPostTags post.tags)) with
        | nil =>
          cases h4 : env.deleteFile f.id <;>
            simp [createPost, uploadFile, getFilePreview, deleteFile, h1, h2, h3, h4]
        | undef =>
          cases h4 : env.deleteFile f.id <;>
            simp [createPost, uploadFile, getFilePreview, deleteFile, h1, h2, h3, h4]
        | _ =>
          simp [createPost, uploadFile, getFilePreview, deleteFile, h1, h2, h3]
      | _ =>
        cases h4 : env.deleteFile f.id <;>
          simp [createPost, uploadFile, getFilePreview, deleteFile, h1, h2, h4]
    | _ => simp [createPost, uploadFile, h1]
  · intro env post db coll docId cap url img loc tags
    by_cases hf : post.file.length > 0
    · cases h1 : env.createFile with
      | ok f =>
        cases h2 : env.getFilePreview f.id with
        | ok u =>
          cases h3 : env.updateDocument env.config.postCollectionId post.postId
              (DocPayload.postUpdateDoc post.caption u f.id post.location
                (updatePostTags post.tags)) with
          | nil =>
            cases h4 : env.deleteFile f.id <;>
              simp [updatePost, updatePostTail, uploadFile, getFilePreview, deleteFile,
                hf, h1, h2, h3, h4]
          | undef =>
            cases h4 : env.deleteFile f.id <;>
              simp [updatePost, updatePostTail, uploadFile, getFilePreview, deleteFile,
                hf, h1, h2, h3, h4]
          | ok d =>
            cases h4 : env.deleteFile post.imageId <;>
              simp [updatePost, updatePostTail, uploadFile, getFilePreview, deleteFile,
                hf, h1, h2, h3, h4]
          | throw e =>
            simp [updatePost, updatePostTail, uploadFile, getFilePreview, deleteFile,
              hf, h1, h2, h3]
        | _ =>
          cases h4 : env.deleteFile f.id <;>
            simp [updatePost, uploadFile, getFilePreview, deleteFile, hf, h1, h2, h4]
      | _ => simp [updatePost, uploadFile, hf, h1]
    · cases h3 : env.updateDocument env.config.postCollectionId post.postId
          (DocPayload.postUpdateDoc post.caption post.imageUrl post.imageId post.location
            (updatePostTags post.tags)) <;>
        simp [updatePost, updatePostTail, uploadFile, getFilePreview, deleteFile, hf, h3]

/-- C5 witness: instantiating the storage conjunct at a concrete run. -/
theorem c5_tags_parse_witness :
    ["a", "b"] = createPostTags post0.tags :=
  c5_tags_parse.2.2.2.1 env0 post0 "db" "posts" "u1" "hello" "preview/file1" "file1" "NYC"
    ["a", "b"] (by decide)

/-! ### C6 — getInfinitePosts query construction -/

/-- C6: for every `pageParam`, `getInfinitePosts` issues exactly one
`listDocuments` call on the post collection whose query list is
`getInfinitePostsQueries pageParam`; that list always contains
`orderDesc("$updatedAt")` and `limit(9)`, and contains
`cursorAfter(pageParam.toString())` exactly when `pageParam` is truthy
(nonzero). -/
theorem c6_infinite_posts_queries : ∀ (env : Env) (p : Int),
    (getInfinitePosts env p).trace =
      [RemoteCall.listDocuments env.config.databaseId env.config.postCollectionId
        (getInfinitePostsQueries p)] ∧
    Query.orderDesc "$updatedAt" ∈ getInfinitePostsQueries p ∧
    Query.limit 9 ∈ getInfinitePostsQueries p ∧
    (Query.cursorAfter (toString p) ∈ getInfinitePostsQueries p ↔ p ≠ 0) := by
  intro env p
  refine ⟨?_, ?_, ?_, ?_⟩
  · cases h : env.listDocuments env.config.postCollectionId (getInfinitePostsQueries p) <;>
      simp [getInfinitePosts, h]
  · by_cases hp : p = 0 <;> simp [getInfinitePostsQueries, hp]
  · by_cases hp : p = 0 <;> simp [getInfinitePostsQueries, hp]
  · by_cases hp : p = 0 <;> simp [getInfinitePostsQueries, hp]

/-- C6 witness: the cursor query is present at `pageParam = 5` and absent at
`pageParam = 0`. -/
theorem c6_infinite_posts_queries_witness :
    Query.cursorAfter (toString (5 : Int)) ∈ getInfinitePostsQueries 5 ∧
    Query.cursorAfter (toString (0 : Int)) ∉ getInfinitePostsQueries 0 :=
  ⟨(c6_infinite_posts_queries env0 5).2.2.2.mpr (by decide),
   fun h => (c6_infinite_posts_queries env0 0).2.2.2.mp h rfl⟩

/-! ### C8 — deletePost guard -/

/-- C8: when `postId` or `imageId` is missing or empty, `deletePost` returns
`undefined` having issued no remote call (and logged nothing). -/
theorem c8_delete_post_guard : ∀ (env : Env) (postId? imageId? : Option String),
    falsyOptStr postId? || falsyOptStr imageId? →
    deletePost env postId? imageId? = ⟨.retd .undef, [], []⟩ := by
  intro env postId? imageId? h
  simp [deletePost, h]

/-- C8 witness: a missing `postId` with a present `imageId`. -/
theorem c8_delete_post_guard_witness :
    deletePost env0 none (some "img1") = ⟨.retd .undef, [], []⟩ :=
  c8_delete_post_guard env0 none (some "img1") (by decide)

/-! ### C9 — getCurrentUser on an empty user query -/

/-- C9: when the account lookup succeeds and the user-collection query
resolves with an empty `documents` array, `getCurrentUser` returns
`undefined` (the first element of an empty array), not `null`; and whenever
both steps resolve with proper response objects, the result is never `null`
(the `null` return arises only from the `catch` block). -/
theorem c9_current_user_empty :
    (∀ (env : Env) (acc : Account),
      env.accountGet = .ok acc →
      env.listDocuments env.config.userCollectionId [Query.equal "accountId" acc.id] =
        .ok ⟨[]⟩ →
      (getCurrentUser env).result = .retd .undef ∧ Value.undef ≠ Value.null) ∧
    (∀ (env : Env) (acc : Account) (l : DocList),
      env.accountGet = .ok acc →
      env.listDocuments env.config.userCollectionId [Query.equal "accountId" acc.id] =
        .ok l →
      (getCurrentUser env).result ≠ .retd .null) := by
  constructor
  · intro env acc h1 h2
    simp [getCurrentUser, getAccount, h1, h2]
  · intro env acc l h1 h2
    cases hd : l.documents <;> simp [getCurrentUser, getAccount, h1, h2, hd]

/-- C9 witness: concrete environment whose user query returns no documents. -/
theorem c9_current_user_empty_witness :
    (getCurrentUser envEmptyList).result = .retd .undef :=
  (c9_current_user_empty.1 envEmptyList ⟨"acc1", "Alice", "alice@x.io"⟩ rfl rfl).1

/-! ### C10 — getUsers limit handling -/

/-- C10: `getUsers` issues one `listDocuments` call on the user collection
with `getUsersQueries`; the `limit(n)` query is in that list exactly when
the limit argument is present with value `n ≠ 0`; in particular a limit of
`0` produces the same request as an absent limit (no limit query at all). -/
theorem c10_get_users_limit : ∀ (env : Env),
    getUsers env (some 0) = getUsers env none ∧
    getUsersQueries (some 0) = [Query.orderDesc "$createdAt"] ∧
    (∀ lim n, Query.limit n ∈ getUsersQueries lim ↔ lim = some n ∧ n ≠ 0) ∧
    (∀ lim, (getUsers env lim).trace =
      [RemoteCall.listDocuments env.config.databaseId env.config.userCollectionId
        (getUsersQueries lim)]) := by
  intro env
  refine ⟨by simp [getUsers, getUsersQueries], rfl, ?_, ?_⟩
  · intro lim n
    cases lim with
    | none => simp [getUsersQueries]
    | some m =>
      by_cases hm : m = 0 <;> simp [getUsersQueries, hm] <;> aesop
  · intro lim
    cases h : env.listDocuments env.config.userCollectionId (getUsersQueries lim) <;>
      simp [getUsers, h]

/-- C10 witness: `getUsers` with limit `0` issues the same single request as
`getUsers` with no limit. -/
theorem c10_get_users_limit_witness :
    getUsers env0 (some 0) = getUsers env0 none ∧
    ¬ (Query.limit 0 ∈ getUsersQueries (some 0)) :=
  ⟨(c10_get_users_limit env0).1,
   fun h => (((c10_get_users_limit env0).2.2.1 (some 0) 0).mp h).2 rfl⟩

/-! ### C2 — createPost compensation -/

/-- C2 counterexample: with the upload succeeding and the document-creation
call rejecting (the ordinary SDK failure mode), `createPost` returns
`undefined` without ever deleting the uploaded file: the `catch` block is
reached directly from the rejected `await`, skipping the
`if (!newPost) { await deleteFile(...) }` compensation. -/
theorem c2_counterexample :
    envDocThrow.createFile = .ok ⟨"file1"⟩ ∧
    (createPost envDocThrow post0).result = .retd .undef ∧
    (createPost envDocThrow post0).trace =
      [RemoteCall.createFile "bucket",
       RemoteCall.createDocument "db" "posts"
         (DocPayload.postDoc "u1" "hello" "preview/file1" "file1" "NYC" ["a", "b"])] ∧
    (∀ sid fid, RemoteCall.deleteFile sid fid ∉ (createPost envDocThrow post0).trace) := by
  have ht : (createPost envDocThrow post0).trace =
      [RemoteCall.createFile "bucket",
       RemoteCall.createDocument "db" "posts"
         (DocPayload.postDoc "u1" "hello" "preview/file1" "file1" "NYC" ["a", "b"])] := by
    decide
  refine ⟨rfl, by decide, ht, ?_⟩
  intro sid fid h
  rw [ht] at h
  simp at h

/-- C2 amended: after a successful upload, the uploaded file is deleted when
the preview URL is falsy, and when the document-creation call RESOLVES with
a falsy value; but when the document-creation call rejects, no deletion
happens (the uploaded file is orphaned) and `createPost` returns
`undefined`. -/
theorem c2_amended : ∀ (env : Env) (post : INewPost) (f : FileRes),
    env.createFile = .ok f →
    (((getFilePreview env f.id).1 = .undef →
       RemoteCall.deleteFile env.config.storageId f.id ∈ (createPost env post).trace ∧
       (createPost env post).result = .retd .undef) ∧
     (∀ u, env.getFilePreview f.id = .ok u →
       (env.createDocument env.config.postCollectionId
           (DocPayload.postDoc post.userId post.caption u f.id post.location
             (createPostTags post.tags)) = .nil →
         RemoteCall.deleteFile env.config.storageId f.id ∈ (createPost env post).trace) ∧
       (env.createDocument env.config.postCollectionId
           (DocPayload.postDoc post.userId post.caption u f.id post.location
             (createPostTags post.tags)) = .undef →
         RemoteCall.deleteFile env.config.storageId f.id ∈ (createPost env post).trace) ∧
       (∀ e, env.createDocument env.config.postCollectionId
           (DocPayload.postDoc post.userId post.caption u f.id post.location
             (createPostTags post.tags)) = .throw e →
         RemoteCall.deleteFile env.config.storageId f.id ∉ (createPost env post).trace ∧
         (createPost env post).result = .retd .undef))) := by
  intro env post f h1
  constructor
  · intro hprev
    cases h2 : env.getFilePreview f.id with
    | ok u => rw [getFilePreview, h2] at hprev; simp at hprev
    | throw e =>
      cases h4 : env.deleteFile f.id <;>
        simp [createPost, uploadFile, getFilePreview, deleteFile, h1, h2, h4]
    | nil =>
      cases h4 : env.deleteFile f.id <;>
        simp [createPost, uploadFile, getFilePreview, deleteFile, h1, h2, h4]
    | undef =>
      cases h4 : env.deleteFile f.id <;>
        simp [createPost, uploadFile, getFilePreview, deleteFile, h1, h2, h4]
  · intro u h2
    refine ⟨?_, ?_, ?_⟩
    · intro h3
      cases h4 : env.deleteFile f.id <;>
        simp [createPost, uploadFile, getFilePreview, deleteFile, h1, h2, h3, h4]
    · intro h3
      cases h4 : env.deleteFile f.id <;>
        simp [createPost, uploadFile, getFilePreview, deleteFile, h1, h2, h3, h4]
    · intro e h3
      simp [createPost, uploadFile, getFilePreview, deleteFile, h1, h2, h3]

/-- C2 witness: with the document creation resolving falsy, the uploaded
file IS deleted. -/
theorem c2_amended_witness :
    RemoteCall.deleteFile "bucket" "file1" ∈ (createPost envDocNil post0).trace :=
  ((c2_amended envDocNil post0 ⟨"file1"⟩ rfl).2 "preview/file1" (by decide)).1 (by decide)

/-! ### C3 — updatePost compensation -/

/-- C3 counterexample: `upd0` carries a new file; the upload and preview
succeed, the document-update call rejects — and no file at all is deleted:
the newly uploaded replacement file is orphaned, contradicting the claim
that a failed update deletes the new file. -/
theorem c3_counterexample :
    upd0.file.length > 0 ∧
    envUpdThrow.createFile = .ok ⟨"file1"⟩ ∧
    (updatePost envUpdThrow upd0).result = .retd .undef ∧
    (updatePost envUpdThrow upd0).trace =
      [RemoteCall.createFile "bucket",
       RemoteCall.updateDocument "db" "posts" "p1"
         (DocPayload.postUpdateDoc "cap" "preview/file1" "file1" "NYC" ["a"])] ∧
    (∀ sid fid, RemoteCall.deleteFile sid fid ∉ (updatePost envUpdThrow upd0).trace) := by
  have ht : (updatePost envUpdThrow upd0).trace =
      [RemoteCall.createFile "bucket",
       RemoteCall.updateDocument "db" "posts" "p1"
         (DocPayload.postUpdateDoc "cap" "preview/file1" "file1" "NYC" ["a"])] := by
    decide
  refine ⟨by decide, rfl, by decide, ht, ?_⟩
  intro sid fid h
  rw [ht] at h
  simp at h

/-- C3 amended: with a new file (upload and preview succeeding): when the
update call RESOLVES falsy the new file is deleted and the old file kept;
when the update call rejects no file is deleted (the new file is orphaned);
when the update succeeds the old file is deleted exactly once, after the
update call.  With no new file, no file is ever deleted. -/
theorem c3_amended :
    (∀ (env : Env) (post : IUpdatePost) (f : FileRes) (u : String),
      post.file.length > 0 →
      env.createFile = .ok f →
      env.getFilePreview f.id = .ok u →
      ((env.updateDocument env.config.postCollectionId post.postId
          (DocPayload.postUpdateDoc post.caption u f.id post.location
            (updatePostTags post.tags)) = .nil ∨
        env.updateDocument env.config.postCollectionId post.postId
          (DocPayload.postUpdateDoc post.caption u f.id post.location
            (updatePostTags post.tags)) = .undef →
        (updatePost env post).trace =
          [RemoteCall.createFile env.config.storageId,
           RemoteCall.updateDocument env.config.databaseId env.config.postCollectionId
             post.postId
             (DocPayload.postUpdateDoc post.caption u f.id post.location
               (updatePostTags post.tags)),
           RemoteCall.deleteFile env.config.storageId f.id] ∧
        (f.id ≠ post.imageId →
          RemoteCall.deleteFile env.config.storageId post.imageId ∉
            (updatePost env post).trace)) ∧
       (∀ e, env.updateDocument env.config.postCollectionId post.postId
          (DocPayload.postUpdateDoc post.caption u f.id post.location
            (updatePostTags post.tags)) = .throw e →
        (updatePost env post).trace =
          [RemoteCall.createFile env.config.storageId,
           RemoteCall.updateDocument env.config.databaseId env.config.postCollectionId
             post.postId
             (DocPayload.postUpdateDoc post.caption u f.id post.location
               (updatePostTags post.tags))] ∧
        (∀ fid, RemoteCall.deleteFile env.config.storageId fid ∉
          (updatePost env post).trace)) ∧
       (∀ d, env.updateDocument env.config.postCollectionId post.postId
          (DocPayload.postUpdateDoc post.caption u f.id post.location
            (updatePostTags post.tags)) = .ok d →
        (updatePost env post).trace =
          [RemoteCall.createFile env.config.storageId,
           RemoteCall.updateDocument env.config.databaseId env.config.postCollectionId
             post.postId
             (DocPayload.postUpdateDoc post.caption u f.id post.location
               (updatePostTags post.tags)),
           RemoteCall.deleteFile env.config.storageId post.imageId]))) ∧
    (∀ (env : Env) (post : IUpdatePost),
      post.file = [] →
      ∀ sid fid, RemoteCall.deleteFile sid fid ∉ (updatePost env post).trace) := by
  constructor
  · intro env post f u hf h1 h2
    refine ⟨?_, ?_, ?_⟩
    · rintro (h3 | h3) <;>
        (cases h4 : env.deleteFile f.id <;>
          (refine ⟨by simp [updatePost, updatePostTail, uploadFile, getFilePreview,
              deleteFile, hf, h1, h2, h3, h4], ?_⟩
           intro hne hmem
           simp [updatePost, updatePostTail, uploadFile, getFilePreview, deleteFile,
             hf, h1, h2, h3, h4] at hmem
           exact hne hmem.symm))
    · intro e h3
      refine ⟨by simp [updatePost, updatePostTail, uploadFile, getFilePreview,
          deleteFile, hf, h1, h2, h3], ?_⟩
      intro fid hmem
      simp [updatePost, updatePostTail, uploadFile, getFilePreview, deleteFile,
        hf, h1, h2, h3] at hmem
    · intro d h3
      cases h4 : env.deleteFile post.imageId <;>
        simp [updatePost, updatePostTail, uploadFile, getFilePreview, deleteFile,
          hf, h1, h2, h3, h4]
  · intro env post hf sid fid hmem
    have hlen : ¬ (post.file.length > 0) := by simp [hf]
    cases h3 : env.updateDocument env.config.postCollectionId post.postId
        (DocPayload.postUpdateDoc post.caption post.imageUrl post.imageId post.location
          (updatePostTags post.tags)) <;>
      simp [updatePost, updatePostTail, uploadFile, getFilePreview, deleteFile,
        hlen, h3] at hmem

/-- C3 witness: a falsy update resolution deletes the new file and keeps the
old one; a successful update deletes the old file after the update call. -/
theorem c3_amended_witness :
    (updatePost envUpdNil upd0).trace =
      [RemoteCall.createFile "bucket",
       RemoteCall.updateDocument "db" "posts" "p1"
         (DocPayload.postUpdateDoc "cap" "preview/file1" "file1" "NYC" ["a"]),
       RemoteCall.deleteFile "bucket" "file1"] ∧
    RemoteCall.deleteFile "bucket" "oldImg" ∉ (updatePost envUpdNil upd0).trace ∧
    (updatePost env0 upd0).trace =
      [RemoteCall.createFile "bucket",
       RemoteCall.updateDocument "db" "posts" "p1"
         (DocPayload.postUpdateDoc "cap" "preview/file1" "file1" "NYC" ["a"]),
       RemoteCall.deleteFile "bucket" "oldImg"] :=
  ⟨(((c3_amended.1 envUpdNil upd0 ⟨"file1"⟩ "preview/file1" (by decide) rfl
      (by decide)).1 (Or.inl (by decide))).1),
   (((c3_amended.1 envUpdNil upd0 ⟨"file1"⟩ "preview/file1" (by decide) rfl
      (by decide)).1 (Or.inl (by decide))).2 (by decide)),
   ((c3_amended.1 env0 upd0 ⟨"file1"⟩ "preview/file1" (by decide) rfl
      (by decide)).2.2 "doc2" (by decide))⟩

/-! ### C7 — number of remote calls per invocation -/

/-- C7 counterexample: on a fully successful run, `createUserAccount` issues
two remote SDK calls (`account.create` then `databases.createDocument` via
`saveUserToDB`), not exactly one. -/
theorem c7_counterexample :
    (createUserAccount env0 user0).trace =
      [RemoteCall.accountCreate "alice@x.io" "pw" "Alice",
       RemoteCall.createDocument "db" "users"
         (DocPayload.userDoc "acc1" "Alice" "alice@x.io" (some "alice") "avatars/Alice")] ∧
    ((createUserAccount env0 user0).trace).length = 2 ∧ (2 : Nat) ≠ 1 := by
  decide

/-- C7 amended: each exported function issues a bounded sequential chain of
dependent remote SDK calls rather than exactly one: the single-call wrappers
issue exactly one; `createUserAccount` issues one or two (exactly two when
`account.create` resolves successfully, exactly one when it rejects);
`getCurrentUser` issues one or two; `createPost`, `updatePost` and
`updateUser` issue between one and three (exactly one when no new file is
provided); `deletePost` issues at most two; and the guard-protected
functions issue none when their guard fires (`getPostById`, `getUserPosts`,
`deletePost` with falsy arguments have an empty trace) and
`getPostById`/`getUserPosts` exactly one otherwise. -/
theorem c7_amended :
    (∀ (env : Env) (user : INewUser),
      1 ≤ ((createUserAccount env user).trace).length ∧
      ((createUserAccount env user).trace).length ≤ 2) ∧
    (∀ (env : Env) (email pw : String),
      ((signInAccount env email pw).trace).length = 1) ∧
    (∀ (env : Env) (a n e : String) (un : Option String) (iu : String),
      ((saveUserToDB env a n e un iu).trace).length = 1) ∧
    (∀ (env : Env), ((getAccount env).trace).length = 1) ∧
    (∀ (env : Env),
      1 ≤ ((getCurrentUser env).trace).length ∧
      ((getCurrentUser env).trace).length ≤ 2) ∧
    (∀ (env : Env), ((signOutAccount env).trace).length = 1) ∧
    (∀ (env : Env) (post : INewPost),
      1 ≤ ((createPost env post).trace).length ∧
      ((createPost env post).trace).length ≤ 3) ∧
    (∀ (env : Env), ((uploadFile env).trace).length = 1) ∧
    (∀ (env : Env) (fid : String), ((deleteFile env fid).trace).length = 1) ∧
    (∀ (env : Env) (term : String), ((searchPosts env term).trace).length = 1) ∧
    (∀ (env : Env) (p : Int), ((getInfinitePosts env p).trace).length = 1) ∧
    (∀ (env : Env) (pid : Option String),
      ((getPostById env pid).trace).length ≤ 1) ∧
    (∀ (env : Env) (post : IUpdatePost),
      1 ≤ ((updatePost env post).trace).length ∧
      ((updatePost env post).trace).length ≤ 3) ∧
    (∀ (env : Env) (pid iid : Option String),
      ((deletePost env pid iid).trace).length ≤ 2) ∧
    (∀ (env : Env) (pid : String) (likes : List String),
      ((likePost env pid likes).trace).length = 1) ∧
    (∀ (env : Env) (uid pid : String), ((savePost env uid pid).trace).length = 1) ∧
    (∀ (env : Env) (rid : String), ((deleteSavedPost env rid).trace).length = 1) ∧
    (∀ (env : Env) (uid : Option String),
      ((getUserPosts env uid).trace).length ≤ 1) ∧
    (∀ (env : Env), ((getRecentPosts env).trace).length = 1) ∧
    (∀ (env : Env) (lim : Option Int), ((getUsers env lim).trace).length = 1) ∧
    (∀ (env : Env) (uid : String), ((getUserById env uid).trace).length = 1) ∧
    (∀ (env : Env) (user : IUpdateUser),
      1 ≤ ((updateUser env user).trace).length ∧
      ((updateUser env user).trace).length ≤ 3) ∧
    (∀ (env : Env) (user : INewUser) (acc : Account), env.accountCreate = .ok acc →
      ((createUserAccount env user).trace).length = 2) ∧
    (∀ (env : Env) (user : INewUser) (e : Value), env.accountCreate = .throw e →
      ((createUserAccount env user).trace).length = 1) ∧
    (∀ (env : Env) (pid : Option String), falsyOptStr pid →
      (getPostById env pid).trace = []) ∧
    (∀ (env : Env) (pid : Option String), ¬ falsyOptStr pid →
      ((getPostById env pid).trace).length = 1) ∧
    (∀ (env : Env) (pid iid : Option String),
      falsyOptStr pid || falsyOptStr iid → (deletePost env pid iid).trace = []) ∧
    (∀ (env : Env) (uid : Option String), falsyOptStr uid →
      (getUserPosts env uid).trace = []) ∧
    (∀ (env : Env) (uid : Option String), ¬ falsyOptStr uid →
      ((getUserPosts env uid).trace).length = 1) ∧
    (∀ (env : Env) (post : IUpdatePost), post.file = [] →
      ((updatePost env post).trace).length = 1) ∧
    (∀ (env : Env) (user : IUpdateUser), user.file = [] →
      ((updateUser env user).trace).length = 1) := by
  refine ⟨?_, ?_, ?_, ?_, ?_, ?_, ?_, ?_, ?_, ?_, ?_, ?_, ?_, ?_, ?_, ?_, ?_, ?_,
    ?_, ?_, ?_, ?_, ?_, ?_, ?_, ?_, ?_, ?_, ?_, ?_, ?_⟩
  · intro env user
    cases h1 : env.accountCreate with
    | ok acc =>
      cases h2 : env.createDocument env.config.userCollectionId
          (DocPayload.userDoc acc.id acc.name acc.email user.username
            (env.getInitials user.name)) <;>
        simp [createUserAccount, saveUserToDB, h1, h2]
    | throw e => simp [createUserAccount, h1]
    | nil => simp [createUserAccount, h1]
    | undef => simp [createUserAccount, h1]
  · intro env email pw
    cases h : env.createEmailPasswordSession <;> simp [signInAccount, h]
  · intro env a n e un iu
    cases h : env.createDocument env.config.userCollectionId
        (DocPayload.userDoc a n e un iu) <;> simp [saveUserToDB, h]
  · intro env
    cases h : env.accountGet <;> simp [getAccount, h]
  · intro env
    cases h1 : env.accountGet with
    | ok acc =>
      cases h2 : env.listDocuments env.config.userCollectionId
          [Query.equal "accountId" acc.id] with
      | ok l => cases hd : l.documents <;> simp [getCurrentUser, getAccount, h1, h2, hd]
      | throw e => simp [getCurrentUser, getAccount, h1, h2]
      | nil => simp [getCurrentUser, getAccount, h1, h2]
      | undef => simp [getCurrentUser, getAccount, h1, h2]
    | throw e => simp [getCurrentUser, getAccount, h1]
    | nil => simp [getCurrentUser, getAccount, h1]
    | undef => simp [getCurrentUser, getAccount, h1]
  · intro env
    cases h : env.deleteSession <;> simp [signOutAccount, h]
  · intro env post
    cases h1 : env.createFile with
    | ok f =>
      cases h2 : env.getFilePreview f.id with
      | ok u =>
        cases h3 : env.createDocument env.config.postCollectionId
            (DocPayload.postDoc post.userId post.caption u f.id post.location
              (createPostTags post.tags)) with
        | throw e =>
          simp [createPost, uploadFile, getFilePreview, deleteFile, h1, h2, h3]
        | nil =>
          cases h4 : env.deleteFile f.id <;>
            simp [createPost, uploadFile, getFilePreview, deleteFile, h1, h2, h3, h4]
        | undef =>
          cases h4 : env.deleteFile f.id <;>
            simp [createPost, uploadFile, getFilePreview, deleteFile, h1, h2, h3, h4]
        | ok d =>
          simp [createPost, uploadFile, getFilePreview, deleteFile, h1, h2, h3]
      | throw e =>
        cases h4 : env.deleteFile f.id <;>
          simp [createPost, uploadFile, getFilePreview, deleteFile, h1, h2, h4]
      | nil =>
        cases h4 : env.deleteFile f.id <;>
          simp [createPost, uploadFile, getFilePreview, deleteFile, h1, h2, h4]
      | undef =>
        cases h4 : env.deleteFile f.id <;>
          simp [createPost, uploadFile, getFilePreview, deleteFile, h1, h2, h4]
    | throw e => simp [createPost, uploadFile, h1]
    | nil => simp [createPost, uploadFile, h1]
    | undef => simp [createPost, uploadFile, h1]
  · intro env
    cases h : env.createFile <;> simp [uploadFile, h]
  · intro env fid
    cases h : env.deleteFile fid <;> simp [deleteFile, h]
  · intro env term
    cases h : env.listDocuments env.config.postCollectionId
        [Query.search "caption" term] <;> simp [searchPosts, h]
  · intro env p
    cases h : env.listDocuments env.config.postCollectionId
        (getInfinitePostsQueries p) <;> simp [getInfinitePosts, h]
  · intro env pid
    by_cases hg : falsyOptStr pid
    · simp [getPostById, hg]
    · cases h : env.getDocument env.config.postCollectionId (pid.getD "") <;>
        simp [getPostById, hg, h]
  · intro env post
    by_cases hf : post.file.length > 0
    · cases h1 : env.createFile with
      | ok f =>
        cases h2 : env.getFilePreview f.id with
        | ok u =>
          cases h3 : env.updateDocument env.config.postCollectionId post.postId
              (DocPayload.postUpdateDoc post.caption u f.id post.location
                (updatePostTags post.tags)) with
          | throw e =>
            simp [updatePost, updatePostTail, uploadFile, getFilePreview, deleteFile,
              hf, h1, h2, h3]
          | nil =>
            cases h4 : env.deleteFile f.id <;>
              simp [updatePost, updatePostTail, uploadFile, getFilePreview, deleteFile,
                hf, h1, h2, h3, h4]
          | undef =>
            cases h4 : env.deleteFile f.id <;>
              simp [updatePost, updatePostTail, uploadFile, getFilePreview, deleteFile,
                hf, h1, h2, h3, h4]
          | ok d =>
            cases h4 : env.deleteFile post.imageId <;>
              simp [updatePost, updatePostTail, uploadFile, getFilePreview, deleteFile,
                hf, h1, h2, h3, h4]
        | throw e =>
          cases h4 : env.deleteFile f.id <;>
            simp [updatePost, uploadFile, getFilePreview, deleteFile, hf, h1, h2, h4]
        | nil =>
          cases h4 : env.deleteFile f.id <;>
            simp [updatePost, uploadFile, getFilePreview, deleteFile, hf, h1, h2, h4]
        | undef =>
          cases h4 : env.deleteFile f.id <;>
            simp [updatePost, uploadFile, getFilePreview, deleteFile, hf, h1, h2, h4]
      | throw e => simp [updatePost, uploadFile, hf, h1]
      | nil => simp [updatePost, uploadFile, hf, h1]
      | undef => simp [updatePost, uploadFile, hf, h1]
    · cases h3 : env.updateDocument env.config.postCollectionId post.postId
          (DocPayload.postUpdateDoc post.caption post.imageUrl post.imageId post.location
            (updatePostTags post.tags)) <;>
        simp [updatePost, updatePostTail, uploadFile, hf, h3]
  · intro env pid iid
    by_cases hg : falsyOptStr pid || falsyOptStr iid
    · simp [deletePost, hg]
    · cases h3 : env.deleteDocument env.config.postCollectionId (pid.getD "") with
      | ok r =>
        cases h4 : env.deleteFile (iid.getD "") <;>
          simp [deletePost, deleteFile, hg, h3, h4]
      | throw e => simp [deletePost, hg, h3]
      | nil => simp [deletePost, hg, h3]
      | undef => simp [deletePost, hg, h3]
  · intro env pid likes
    cases h : env.updateDocument env.config.postCollectionId pid
        (DocPayload.likesDoc likes) <;> simp [likePost, h]
  · intro env uid pid
    cases h : env.createDocument env.config.savesCollectionId
        (DocPayload.saveDoc uid pid) <;> simp [savePost, h]
  · intro env rid
    cases h : env.deleteDocument env.config.savesCollectionId rid <;>
      simp [deleteSavedPost, h]
  · intro env uid
    by_cases hg : falsyOptStr uid
    · simp [getUserPosts, hg]
    · cases h : env.listDocuments env.config.postCollectionId
          [Query.equal "creator" (uid.getD ""), Query.orderDesc "$createdAt"] <;>
        simp [getUserPosts, hg, h]
  · intro env
    cases h : env.listDocuments env.config.postCollectionId
        [Query.orderDesc "$createdAt", Query.limit 20] <;> simp [getRecentPosts, h]
  · intro env lim
    cases h : env.listDocuments env.config.userCollectionId (getUsersQueries lim) <;>
      simp [getUsers, h]
  · intro env uid
    cases h : env.getDocument env.config.userCollectionId uid <;>
      simp [getUserById, h]
  · intro env user
    by_cases hf : user.file.length > 0
    · cases h1 : env.createFile with
      | ok f =>
        cases h2 : env.getFilePreview f.id with
        | ok u =>
          cases h3 : env.updateDocument env.config.userCollectionId user.userId
              (DocPayload.userUpdateDoc user.name user.bio u f.id) with
          | throw e =>
            simp [updateUser, updateUserTail, uploadFile, getFilePreview, deleteFile,
              hf, h1, h2, h3]
          | nil =>
            cases h4 : env.deleteFile f.id <;>
              simp [updateUser, updateUserTail, uploadFile, getFilePreview, deleteFile,
                hf, h1, h2, h3, h4]
          | undef =>
            cases h4 : env.deleteFile f.id <;>
              simp [updateUser, updateUserTail, uploadFile, getFilePreview, deleteFile,
                hf, h1, h2, h3, h4]
          | ok d =>
            by_cases hid : user.imageId = "" <;>
              cases h4 : env.deleteFile user.imageId <;>
                simp [updateUser, updateUserTail, uploadFile, getFilePreview, deleteFile,
                  hf, hid, h1, h2, h3, h4]
        | throw e =>
          cases h4 : env.deleteFile f.id <;>
            simp [updateUser, uploadFile, getFilePreview, deleteFile, hf, h1, h2, h4]
        | nil =>
          cases h4 : env.deleteFile f.id <;>
            simp [updateUser, uploadFile, getFilePreview, deleteFile, hf, h1, h2, h4]
        | undef =>
          cases h4 : env.deleteFile f.id <;>
            simp [updateUser, uploadFile, getFilePreview, deleteFile, hf, h1, h2, h4]
      | throw e => simp [updateUser, uploadFile, hf, h1]
      | nil => simp [updateUser, uploadFile, hf, h1]
      | undef => simp [updateUser, uploadFile, hf, h1]
    · cases h3 : env.updateDocument env.config.userCollectionId user.userId
          (DocPayload.userUpdateDoc user.name user.bio user.imageUrl user.imageId) <;>
        simp [updateUser, updateUserTail, uploadFile, hf, h3]
  · intro env user acc h1
    cases h2 : env.createDocument env.config.userCollectionId
        (DocPayload.userDoc acc.id acc.name acc.email user.username
          (env.getInitials user.name)) <;>
      simp [createUserAccount, saveUserToDB, h1, h2]
  · intro env user e h
    simp [createUserAccount, h]
  · intro env pid hg
    simp [getPostById, hg]
  · intro env pid hg
    cases h : env.getDocument env.config.postCollectionId (pid.getD "") <;>
      simp [getPostById, hg, h]
  · intro env pid iid hg
    simp [deletePost, hg]
  · intro env uid hg
    simp [getUserPosts, hg]
  · intro env uid hg
    cases h : env.listDocuments env.config.postCollectionId
        [Query.equal "creator" (uid.getD ""), Query.orderDesc "$createdAt"] <;>
      simp [getUserPosts, hg, h]
  · intro env post hfe
    have hf : ¬ (post.file.length > 0) := by simp [hfe]
    cases h3 : env.updateDocument env.config.postCollectionId post.postId
        (DocPayload.postUpdateDoc post.caption post.imageUrl post.imageId post.location
          (updatePostTags post.tags)) <;>
      simp [updatePost, updatePostTail, hf, h3]
  · intro env user hfe
    have hf : ¬ (user.file.length > 0) := by simp [hfe]
    cases h3 : env.updateDocument env.config.userCollectionId user.userId
        (DocPayload.userUpdateDoc user.name user.bio user.imageUrl user.imageId) <;>
      simp [updateUser, updateUserTail, hf, h3]

/-- C7 amended witness: concrete instantiations — the bound conjuncts for
`createUserAccount`, `createPost` and `signInAccount`, the exact success
count for `createUserAccount`, and the empty trace on `deletePost`'s guard
path. -/
theorem c7_amended_witness :
    1 ≤ ((createUserAccount env0 user0).trace).length ∧
    ((createPost env0 post0).trace).length ≤ 3 ∧
    ((signInAccount env0 "a" "b").trace).length = 1 ∧
    ((createUserAccount env0 user0).trace).length = 2 ∧
    (deletePost env0 none (some "img1")).trace = [] :=
  ⟨(c7_amended.1 env0 user0).1, (c7_amended.2.2.2.2.2.2.1 env0 post0).2,
   c7_amended.2.1 env0 "a" "b",
   c7_amended.2.2.2.2.2.2.2.2.2.2.2.2.2.2.2.2.2.2.2.2.2.2.1 env0 user0
     ⟨"acc1", "Alice", "alice@x.io"⟩ rfl,
   c7_amended.2.2.2.2.2.2.2.2.2.2.2.2.2.2.2.2.2.2.2.2.2.2.2.2.2.2.1 env0 none
     (some "img1") (by decide)⟩

/-! ### C4 — forwarding the SDK response on success -/

/-- C4 counterexample: `deleteFile`'s remote call resolves with the SDK
response `"delFileResp"`, yet the function returns the locally constructed
`{ status: "ok" }` object, not the SDK response. -/
theorem c4_counterexample :
    env0.deleteFile "f1" = .ok "delFileResp" ∧
    (deleteFile env0 "f1").result = .retd (.statusObj "ok") ∧
    (deleteFile env0 "f1").result ≠ .retd (.doc "delFileResp") := by
  decide

/-- C4 amended: on the success path each exported function returns the SDK
response of its primary remote call unchanged — EXCEPT `deleteFile`,
`deletePost` and `deleteSavedPost`, which return a locally constructed
`{ status }` object, and `getCurrentUser`, which returns the first element
of the response's `documents` array (in `updatePost`/`updateUser` with a new
file the trailing `deleteFile`'s response is likewise discarded; the update
response is what is returned). -/
theorem c4_amended :
    (∀ (env : Env) (user : INewUser) (acc : Account) (d : Document),
      env.accountCreate = .ok acc →
      env.createDocument env.config.userCollectionId
        (DocPayload.userDoc acc.id acc.name acc.email user.username
          (env.getInitials user.name)) = .ok d →
      (createUserAccount env user).result = .retd (.doc d)) ∧
    (∀ (env : Env) (email pw s : String),
      env.createEmailPasswordSession = .ok s →
      (signInAccount env email pw).result = .retd (.session s)) ∧
    (∀ (env : Env) (a n e : String) (un : Option String) (iu : String) (d : Document),
      env.createDocument env.config.userCollectionId (DocPayload.userDoc a n e un iu) =
        .ok d →
      (saveUserToDB env a n e un iu).result = .retd (.doc d)) ∧
    (∀ (env : Env) (a : Account),
      env.accountGet = .ok a → (getAccount env).result = .retd (.account a)) ∧
    (∀ (env : Env) (s : String),
      env.deleteSession = .ok s → (signOutAccount env).result = .retd (.session s)) ∧
    (∀ (env : Env) (f : FileRes),
      env.createFile = .ok f → (uploadFile env).result = .retd (.file f)) ∧
    (∀ (env : Env) (post : INewPost) (f : FileRes) (u : String) (d : Document),
      env.createFile = .ok f →
      env.getFilePreview f.id = .ok u →
      env.createDocument env.config.postCollectionId
        (DocPayload.postDoc post.userId post.caption u f.id post.location
          (createPostTags post.tags)) = .ok d →
      (createPost env post).result = .retd (.doc d)) ∧
    (∀ (env : Env) (term : String) (l : DocList),
      env.listDocuments env.config.postCollectionId [Query.search "caption" term] =
        .ok l →
      (searchPosts env term).result = .retd (.docList l)) ∧
    (∀ (env : Env) (p : Int) (l : DocList),
      env.listDocuments env.config.postCollectionId (getInfinitePostsQueries p) =
        .ok l →
      (getInfinitePosts env p).result = .retd (.docList l)) ∧
    (∀ (env : Env) (pid : Option String) (d : Document),
      ¬ falsyOptStr pid →
      env.getDocument env.config.postCollectionId (pid.getD "") = .ok d →
      (getPostById env pid).result = .retd (.doc d)) ∧
    (∀ (env : Env) (post : IUpdatePost) (d : Document),
      post.file = [] →
      env.updateDocument env.config.postCollectionId post.postId
        (DocPayload.postUpdateDoc post.caption post.imageUrl post.imageId post.location
          (updatePostTags post.tags)) = .ok d →
      (updatePost env post).result = .retd (.doc d)) ∧
    (∀ (env : Env) (post : IUpdatePost) (f : FileRes) (u : String) (d : Document),
      post.file.length > 0 →
      env.createFile = .ok f →
      env.getFilePreview f.id = .ok u →
      env.updateDocument env.config.postCollectionId post.postId
        (DocPayload.postUpdateDoc post.caption u f.id post.location
          (updatePostTags post.tags)) = .ok d →
      (updatePost env post).result = .retd (.doc d)) ∧
    (∀ (env : Env) (pid : String) (likes : List String) (d : Document),
      env.updateDocument env.config.postCollectionId pid (DocPayload.likesDoc likes) =
        .ok d →
      (likePost env pid likes).result = .retd (.doc d)) ∧
    (∀ (env : Env) (uid pid : String) (d : Document),
      env.createDocument env.config.savesCollectionId (DocPayload.saveDoc uid pid) =
        .ok d →
      (savePost env uid pid).result = .retd (.doc d)) ∧
    (∀ (env : Env) (uid : Option String) (l : DocList),
      ¬ falsyOptStr uid →
      env.listDocuments env.config.postCollectionId
        [Query.equal "creator" (uid.getD ""), Query.orderDesc "$createdAt"] = .ok l →
      (getUserPosts env uid).result = .retd (.docList l)) ∧
    (∀ (env : Env) (l : DocList),
      env.listDocuments env.config.postCollectionId
        [Query.orderDesc "$createdAt", Query.limit 20] = .ok l →
      (getRecentPosts env).result = .retd (.docList l)) ∧
    (∀ (env : Env) (lim : Option Int) (l : DocList),
      env.listDocuments env.config.userCollectionId (getUsersQueries lim) = .ok l →
      (getUsers env lim).result = .retd (.docList l)) ∧
    (∀ (env : Env) (uid : String) (d : Document),
      env.getDocument env.config.userCollectionId uid = .ok d →
      (getUserById env uid).result = .retd (.doc d)) ∧
    (∀ (env : Env) (user : IUpdateUser) (d : Document),
      user.file = [] →
      env.updateDocument env.config.userCollectionId user.userId
        (DocPayload.userUpdateDoc user.name user.bio user.imageUrl user.imageId) =
        .ok d →
      (updateUser env user).result = .retd (.doc d)) ∧
    (∀ (env : Env) (user : IUpdateUser) (f : FileRes) (u : String) (d : Document),
      user.file.length > 0 →
      env.createFile = .ok f →
      env.getFilePreview f.id = .ok u →
      env.updateDocument env.config.userCollectionId user.userId
        (DocPayload.userUpdateDoc user.name user.bio u f.id) = .ok d →
      (updateUser env user).result = .retd (.doc d)) ∧
    (∀ (env : Env) (fid : String) (r : Document),
      env.deleteFile fid = .ok r →
      (deleteFile env fid).result = .retd (.statusObj "ok")) ∧
    (∀ (env : Env) (pid iid : Option String) (r : Document),
      ¬ (falsyOptStr pid || falsyOptStr iid) →
      env.deleteDocument env.config.postCollectionId (pid.getD "") = .ok r →
      (deletePost env pid iid).result = .retd (.statusObj "Ok")) ∧
    (∀ (env : Env) (rid : String) (r : Document),
      env.deleteDocument env.config.savesCollectionId rid = .ok r →
      (deleteSavedPost env rid).result = .retd (.statusObj "Ok")) ∧
    (∀ (env : Env) (acc : Account) (l : DocList),
      env.accountGet = .ok acc →
      env.listDocuments env.config.userCollectionId [Query.equal "accountId" acc.id] =
        .ok l →
      (getCurrentUser env).result =
        .retd (match l.documents with | [] => .undef | d :: _ => .doc d)) := by
  refine ⟨?_, ?_, ?_, ?_, ?_, ?_, ?_, ?_, ?_, ?_, ?_, ?_, ?_, ?_, ?_, ?_, ?_, ?_,
    ?_, ?_, ?_, ?_, ?_, ?_⟩
  · intro env user acc d h1 h2
    simp [createUserAccount, saveUserToDB, h1, h2]
  · intro env email pw s h
    simp [signInAccount, h]
  · intro env a n e un iu d h
    simp [saveUserToDB, h]
  · intro env a h
    simp [getAccount, h]
  · intro env s h
    simp [signOutAccount, h]
  · intro env f h
    simp [uploadFile, h]
  · intro env post f u d h1 h2 h3
    simp [createPost, uploadFile, getFilePreview, h1, h2, h3]
  · intro env term l h
    simp [searchPosts, h]
  · intro env p l h
    simp [getInfinitePosts, h]
  · intro env pid d hg h
    simp [getPostById, hg, h]
  · intro env post d hfe h3
    have hf : ¬ (post.file.length > 0) := by simp [hfe]
    simp [updatePost, updatePostTail, hf, h3]
  · intro env post f u d hf h1 h2 h3
    cases h4 : env.deleteFile post.imageId <;>
      simp [updatePost, updatePostTail, uploadFile, getFilePreview, deleteFile,
        hf, h1, h2, h3, h4]
  · intro env pid likes d h
    simp [likePost, h]
  · intro env uid pid d h
    simp [savePost, h]
  · intro env uid l hg h
    simp [getUserPosts, hg, h]
  · intro env l h
    simp [getRecentPosts, h]
  · intro env lim l h
    simp [getUsers, h]
  · intro env uid d h
    simp [getUserById, h]
  · intro env user d hfe h3
    have hf : ¬ (user.file.length > 0) := by simp [hfe]
    simp [updateUser, updateUserTail, hf, h3]
  · intro env user f u d hf h1 h2 h3
    by_cases hid : user.imageId = ""
    · simp [updateUser, updateUserTail, uploadFile, getFilePreview, deleteFile,
        hf, hid, h1, h2, h3]
    · cases h4 : env.deleteFile user.imageId <;>
        simp [updateUser, updateUserTail, uploadFile, getFilePreview, deleteFile,
          hf, hid, h1, h2, h3, h4]
  · intro env fid r h
    simp [deleteFile, h]
  · intro env pid iid r hg h3
    cases h4 : env.deleteFile (iid.getD "") <;>
      simp [deletePost, deleteFile, hg, h3, h4]
  · intro env rid r h
    simp [deleteSavedPost, h]
  · intro env acc l h1 h2
    cases hd : l.documents <;> simp [getCurrentUser, getAccount, h1, h2, hd]

/-- C4 amended witness: the session is forwarded unchanged on a successful
sign-in, and `deletePost` returns its constructed status object. -/
theorem c4_amended_witness :
    (signInAccount env0 "a" "b").result = .retd (.session "sess1") ∧
    (deletePost env0 (some "p1") (some "img1")).result = .retd (.statusObj "Ok") :=
  ⟨c4_amended.2.1 env0 "a" "b" "sess1" rfl,
   c4_amended.2.2.2.2.2.2.2.2.2.2.2.2.2.2.2.2.2.2.2.2.2.1 env0 (some "p1") (some "img1")
     "delResp" (by decide) rfl⟩

/-! ### C1 — uniform error policy -/

/-- C1 counterexample: two violations of the claimed uniform policy.  When
`account.create` rejects, `createUserAccount` returns the caught error value
itself (`return error;`), which is neither `undefined` nor `null`; and
`getPostById` called without a `postId` propagates an exception to the
caller (the `throw Error` stands before the `try`). -/
theorem c1_counterexample :
    (createUserAccount envAccThrow user0).result = .retd .error ∧
    Value.error ≠ Value.undef ∧ Value.error ≠ Value.null ∧
    (getPostById env0 none).result = .thrown .error := by
  decide

/-- C1 amended: every exported function settles by returning — never by
propagating an exception — and, when a step of its body fails, logs the
failure and returns `undefined` (`null` for `getCurrentUser`), with two
exceptions: `createUserAccount` returns the caught error value itself, and
`getPostById` propagates an exception (before issuing any remote call) when
called with a missing or empty `postId`. -/
theorem c1_amended :
    (∀ (env : Env) (user : INewUser),
      ∃ v, (createUserAccount env user).result = .retd v) ∧
    (∀ (env : Env) (email pw : String),
      ∃ v, (signInAccount env email pw).result = .retd v) ∧
    (∀ (env : Env) (a n e : String) (un : Option String) (iu : String),
      ∃ v, (saveUserToDB env a n e un iu).result = .retd v) ∧
    (∀ (env : Env), ∃ v, (getAccount env).result = .retd v) ∧
    (∀ (env : Env), ∃ v, (getCurrentUser env).result = .retd v) ∧
    (∀ (env : Env), ∃ v, (signOutAccount env).result = .retd v) ∧
    (∀ (env : Env) (post : INewPost), ∃ v, (createPost env post).result = .retd v) ∧
    (∀ (env : Env), ∃ v, (uploadFile env).result = .retd v) ∧
    (∀ (env : Env) (fid : String), ∃ v, (deleteFile env fid).result = .retd v) ∧
    (∀ (env : Env) (term : String), ∃ v, (searchPosts env term).result = .retd v) ∧
    (∀ (env : Env) (p : Int), ∃ v, (getInfinitePosts env p).result = .retd v) ∧
    (∀ (env : Env) (pid : Option String), ¬ falsyOptStr pid →
      ∃ v, (getPostById env pid).result = .retd v) ∧
    (∀ (env : Env) (pid : Option String), falsyOptStr pid →
      (getPostById env pid).result = .thrown .error ∧ (getPostById env pid).trace = []) ∧
    (∀ (env : Env) (post : IUpdatePost), ∃ v, (updatePost env post).result = .retd v) ∧
    (∀ (env : Env) (pid iid : Option String),
      ∃ v, (deletePost env pid iid).result = .retd v) ∧
    (∀ (env : Env) (pid : String) (likes : List String),
      ∃ v, (likePost env pid likes).result = .retd v) ∧
    (∀ (env : Env) (uid pid : String), ∃ v, (savePost env uid pid).result = .retd v) ∧
    (∀ (env : Env) (rid : String), ∃ v, (deleteSavedPost env rid).result = .retd v) ∧
    (∀ (env : Env) (uid : Option String),
      ∃ v, (getUserPosts env uid).result = .retd v) ∧
    (∀ (env : Env), ∃ v, (getRecentPosts env).result = .retd v) ∧
    (∀ (env : Env) (lim : Option Int), ∃ v, (getUsers env lim).result = .retd v) ∧
    (∀ (env : Env) (uid : String), ∃ v, (getUserById env uid).result = .retd v) ∧
    (∀ (env : Env) (user : IUpdateUser), ∃ v, (updateUser env user).result = .retd v) ∧
    (∀ (env : Env) (user : INewUser) (e : Value), env.accountCreate = .throw e →
      (createUserAccount env user).result = .retd e ∧
      e ∈ (createUserAccount env user).logs) ∧
    (∀ (env : Env) (email pw : String) (e : Value),
      env.createEmailPasswordSession = .throw e →
      (signInAccount env email pw).result = .retd .undef ∧
      e ∈ (signInAccount env email pw).logs) ∧
    (∀ (env : Env) (a n em : String) (un : Option String) (iu : String) (e : Value),
      env.createDocument env.config.userCollectionId (DocPayload.userDoc a n em un iu) =
        .throw e →
      (saveUserToDB env a n em un iu).result = .retd .undef ∧
      e ∈ (saveUserToDB env a n em un iu).logs) ∧
    (∀ (env : Env) (e : Value), env.accountGet = .throw e →
      (getAccount env).result = .retd .undef ∧ e ∈ (getAccount env).logs) ∧
    (∀ (env : Env) (e : Value), env.accountGet = .throw e →
      (getCurrentUser env).result = .retd .null ∧ e ∈ (getCurrentUser env).logs) ∧
    (∀ (env : Env) (e : Value), env.deleteSession = .throw e →
      (signOutAccount env).result = .retd .undef ∧ e ∈ (signOutAccount env).logs) ∧
    (∀ (env : Env) (e : Value), env.createFile = .throw e →
      (uploadFile env).result = .retd .undef ∧ e ∈ (uploadFile env).logs) ∧
    (∀ (env : Env) (fid : String) (e : Value), env.deleteFile fid = .throw e →
      (deleteFile env fid).result = .retd .undef ∧ e ∈ (deleteFile env fid).logs) ∧
    (∀ (env : Env) (post : INewPost) (e : Value), env.createFile = .throw e →
      (createPost env post).result = .retd .undef ∧ e ∈ (createPost env post).logs) ∧
    (∀ (env : Env) (term : String) (e : Value),
      env.listDocuments env.config.postCollectionId [Query.search "caption" term] =
        .throw e →
      (searchPosts env term).result = .retd .undef ∧ e ∈ (searchPosts env term).logs) ∧
    (∀ (env : Env) (p : Int) (e : Value),
      env.listDocuments env.config.postCollectionId (getInfinitePostsQueries p) =
        .throw e →
      (getInfinitePosts env p).result = .retd .undef ∧
      e ∈ (getInfinitePosts env p).logs) ∧
    (∀ (env : Env) (pid : Option String) (e : Value), ¬ falsyOptStr pid →
      env.getDocument env.config.postCollectionId (pid.getD "") = .throw e →
      (getPostById env pid).result = .retd .undef ∧ e ∈ (getPostById env pid).logs) ∧
    (∀ (env : Env) (post : IUpdatePost) (e : Value), post.file.length > 0 →
      env.createFile = .throw e →
      (updatePost env post).result = .retd .undef ∧ e ∈ (updatePost env post).logs) ∧
    (∀ (env : Env) (pid iid : Option String) (e : Value),
      ¬ (falsyOptStr pid || falsyOptStr iid) →
      env.deleteDocument env.config.postCollectionId (pid.getD "") = .throw e →
      (deletePost env pid iid).result = .retd .undef ∧
      e ∈ (deletePost env pid iid).logs) ∧
    (∀ (env : Env) (pid : String) (likes : List String) (e : Value),
      env.updateDocument env.config.postCollectionId pid (DocPayload.likesDoc likes) =
        .throw e →
      (likePost env pid likes).result = .retd .undef ∧
      e ∈ (likePost env pid likes).logs) ∧
    (∀ (env : Env) (uid pid : String) (e : Value),
      env.createDocument env.config.savesCollectionId (DocPayload.saveDoc uid pid) =
        .throw e →
      (savePost env uid pid).result = .retd .undef ∧
      e ∈ (savePost env uid pid).logs) ∧
    (∀ (env : Env) (rid : String) (e : Value),
      env.deleteDocument env.config.savesCollectionId rid = .throw e →
      (deleteSavedPost env rid).result = .retd .undef ∧
      e ∈ (deleteSavedPost env rid).logs) ∧
    (∀ (env : Env) (uid : Option String) (e : Value), ¬ falsyOptStr uid →
      env.listDocuments env.config.postCollectionId
        [Query.equal "creator" (uid.getD ""), Query.orderDesc "$createdAt"] = .throw e →
      (getUserPosts env uid).result = .retd .undef ∧
      e ∈ (getUserPosts env uid).logs) ∧
    (∀ (env : Env) (e : Value),
      env.listDocuments env.config.postCollectionId
        [Query.orderDesc "$createdAt", Query.limit 20] = .throw e →
      (getRecentPosts env).result = .retd .undef ∧ e ∈ (getRecentPosts env).logs) ∧
    (∀ (env : Env) (lim : Option Int) (e : Value),
      env.listDocuments env.config.userCollectionId (getUsersQueries lim) = .throw e →
      (getUsers env lim).result = .retd .undef ∧ e ∈ (getUsers env lim).logs) ∧
    (∀ (env : Env) (uid : String) (e : Value),
      env.getDocument env.config.userCollectionId uid = .throw e →
      (getUserById env uid).result = .retd .undef ∧ e ∈ (getUserById env uid).logs) ∧
    (∀ (env : Env) (user : IUpdateUser) (e : Value), user.file.length > 0 →
      env.createFile = .throw e →
      (updateUser env user).result = .retd .undef ∧ e ∈ (updateUser env user).logs) := by
  refine ⟨?_, ?_, ?_, ?_, ?_, ?_, ?_, ?_, ?_, ?_, ?_, ?_, ?_, ?_, ?_, ?_, ?_, ?_,
    ?_, ?_, ?_, ?_, ?_, ?_, ?_, ?_, ?_, ?_, ?_, ?_, ?_, ?_, ?_, ?_, ?_, ?_, ?_, ?_,
    ?_, ?_, ?_, ?_, ?_, ?_, ?_⟩
  · intro env user
    cases h1 : env.accountCreate with
    | ok acc =>
      cases h2 : env.createDocument env.config.userCollectionId
          (DocPayload.userDoc acc.id acc.name acc.email user.username
            (env.getInitials user.name)) <;>
        simp [createUserAccount, saveUserToDB, h1, h2]
    | throw e => simp [createUserAccount, h1]
    | nil => simp [createUserAccount, h1]
    | undef => simp [createUserAccount, h1]
  · intro env email pw
    cases h : env.createEmailPasswordSession <;> simp [signInAccount, h]
  · intro env a n e un iu
    cases h : env.createDocument env.config.userCollectionId
        (DocPayload.userDoc a n e un iu) <;> simp [saveUserToDB, h]
  · intro env
    cases h : env.accountGet <;> simp [getAccount, h]
  · intro env
    cases h1 : env.accountGet with
    | ok acc =>
      cases h2 : env.listDocuments env.config.userCollectionId
          [Query.equal "accountId" acc.id] with
      | ok l => cases hd : l.documents <;> simp [getCurrentUser, getAccount, h1, h2, hd]
      | throw e => simp [getCurrentUser, getAccount, h1, h2]
      | nil => simp [getCurrentUser, getAccount, h1, h2]
      | undef => simp [getCurrentUser, getAccount, h1, h2]
    | throw e => simp [getCurrentUser, getAccount, h1]
    | nil => simp [getCurrentUser, getAccount, h1]
    | undef => simp [getCurrentUser, getAccount, h1]
  · intro env
    cases h : env.deleteSession <;> simp [signOutAccount, h]
  · intro env post
    cases h1 : env.createFile with
    | ok f =>
      cases h2 : env.getFilePreview f.id with
      | ok u =>
        cases h3 : env.createDocument env.config.postCollectionId
            (DocPayload.postDoc post.userId post.caption u f.id post.location
              (createPostTags post.tags)) with
        | throw e =>
          simp [createPost, uploadFile, getFilePreview, deleteFile, h1, h2, h3]
        | nil =>
          cases h4 : env.deleteFile f.id <;>
            simp [createPost, uploadFile, getFilePreview, deleteFile, h1, h2, h3, h4]
        | undef =>
          cases h4 : env.deleteFile f.id <;>
            simp [createPost, uploadFile, getFilePreview, deleteFile, h1, h2, h3, h4]
        | ok d =>
          simp [createPost, uploadFile, getFilePreview, deleteFile, h1, h2, h3]
      | throw e =>
        cases h4 : env.deleteFile f.id <;>
          simp [createPost, uploadFile, getFilePreview, deleteFile, h1, h2, h4]
      | nil =>
        cases h4 : env.deleteFile f.id <;>
          simp [createPost, uploadFile, getFilePreview, deleteFile, h1, h2, h4]
      | undef =>
        cases h4 : env.deleteFile f.id <;>
          simp [createPost, uploadFile, getFilePreview, deleteFile, h1, h2, h4]
    | throw e => simp [createPost, uploadFile, h1]
    | nil => simp [createPost, uploadFile, h1]
    | undef => simp [createPost, uploadFile, h1]
  · intro env
    cases h : env.createFile <;> simp [uploadFile, h]
  · intro env fid
    cases h : env.deleteFile fid <;> simp [deleteFile, h]
  · intro env term
    cases h : env.listDocuments env.config.postCollectionId
        [Query.search "caption" term] <;> simp [searchPosts, h]
  · intro env p
    cases h : env.listDocuments env.config.postCollectionId
        (getInfinitePostsQueries p) <;> simp [getInfinitePosts, h]
  · intro env pid hg
    cases h : env.getDocument env.config.postCollectionId (pid.getD "") <;>
      simp [getPostById, hg, h]
  · intro env pid hg
    simp [getPostById, hg]
  · intro env post
    by_cases hf : post.file.length > 0
    · cases h1 : env.createFile with
      | ok f =>
        cases h2 : env.getFilePreview f.id with
        | ok u =>
          cases h3 : env.updateDocument env.config.postCollectionId post.postId
              (DocPayload.postUpdateDoc post.caption u f.id post.location
                (updatePostTags post.tags)) with
          | throw e =>
            simp [updatePost, updatePostTail, uploadFile, getFilePreview, deleteFile,
              hf, h1, h2, h3]
          | nil =>
            cases h4 : env.deleteFile f.id <;>
              simp [updatePost, updatePostTail, uploadFile, getFilePreview, deleteFile,
                hf, h1, h2, h3, h4]
          | undef =>
            cases h4 : env.deleteFile f.id <;>
              simp [updatePost, updatePostTail, uploadFile, getFilePreview, deleteFile,
                hf, h1, h2, h3, h4]
          | ok d =>
            cases h4 : env.deleteFile post.imageId <;>
              simp [updatePost, updatePostTail, uploadFile, getFilePreview, deleteFile,
                hf, h1, h2, h3, h4]
        | throw e =>
          cases h4 : env.deleteFile f.id <;>
            simp [updatePost, uploadFile, getFilePreview, deleteFile, hf, h1, h2, h4]
        | nil =>
          cases h4 : env.deleteFile f.id <;>
            simp [updatePost, uploadFile, getFilePreview, deleteFile, hf, h1, h2, h4]
        | undef =>
          cases h4 : env.deleteFile f.id <;>
            simp [updatePost, uploadFile, getFilePreview, deleteFile, hf, h1, h2, h4]
      | throw e => simp [updatePost, uploadFile, hf, h1]
      | nil => simp [updatePost, uploadFile, hf, h1]
      | undef => simp [updatePost, uploadFile, hf, h1]
    · cases h3 : env.updateDocument env.config.postCollectionId post.postId
          (DocPayload.postUpdateDoc post.caption post.imageUrl post.imageId post.location
            (updatePostTags post.tags)) <;>
        simp [updatePost, updatePostTail, hf, h3]
  · intro env pid iid
    by_cases hg : falsyOptStr pid || falsyOptStr iid
    · simp [deletePost, hg]
    · cases h3 : env.deleteDocument env.config.postCollectionId (pid.getD "") with
      | ok r =>
        cases h4 : env.deleteFile (iid.getD "") <;>
          simp [deletePost, deleteFile, hg, h3, h4]
      | throw e => simp [deletePost, hg, h3]
      | nil => simp [deletePost, hg, h3]
      | undef => simp [deletePost, hg, h3]
  · intro env pid likes
    cases h : env.updateDocument env.config.postCollectionId pid
        (DocPayload.likesDoc likes) <;> simp [likePost, h]
  · intro env uid pid
    cases h : env.createDocument env.config.savesCollectionId
        (DocPayload.saveDoc uid pid) <;> simp [savePost, h]
  · intro env rid
    cases h : env.deleteDocument env.config.savesCollectionId rid <;>
      simp [deleteSavedPost, h]
  · intro env uid
    by_cases hg : falsyOptStr uid
    · simp [getUserPosts, hg]
    · cases h : env.listDocuments env.config.postCollectionId
          [Query.equal "creator" (uid.getD ""), Query.orderDesc "$createdAt"] <;>
        simp [getUserPosts, hg, h]
  · intro env
    cases h : env.listDocuments env.config.postCollectionId
        [Query.orderDesc "$createdAt", Query.limit 20] <;> simp [getRecentPosts, h]
  · intro env lim
    cases h : env.listDocuments env.config.userCollectionId (getUsersQueries lim) <;>
      simp [getUsers, h]
  · intro env uid
    cases h : env.getDocument env.config.userCollectionId uid <;>
      simp [getUserById, h]
  · intro env user
    by_cases hf : user.file.length > 0
    · cases h1 : env.createFile with
      | ok f =>
        cases h2 : env.getFilePreview f.id with
        | ok u =>
          cases h3 : env.updateDocument env.config.userCollectionId user.userId
              (DocPayload.userUpdateDoc user.name user.bio u f.id) with
          | throw e =>
            simp [updateUser, updateUserTail, uploadFile, getFilePreview, deleteFile,
              hf, h1, h2, h3]
          | nil =>
            cases h4 : env.deleteFile f.id <;>
              simp [updateUser, updateUserTail, uploadFile, getFilePreview, deleteFile,
                hf, h1, h2, h3, h4]
          | undef =>
            cases h4 : env.deleteFile f.id <;>
              simp [updateUser, updateUserTail, uploadFile, getFilePreview, deleteFile,
                hf, h1, h2, h3, h4]
          | ok d =>
            by_cases hid : user.imageId = ""
            · simp [updateUser, updateUserTail, uploadFile, getFilePreview, deleteFile,
                hf, hid, h1, h2, h3]
            · cases h4 : env.deleteFile user.imageId <;>
                simp [updateUser, updateUserTail, uploadFile, getFilePreview, deleteFile,
                  hf, hid, h1, h2, h3, h4]
        | throw e =>
          cases h4 : env.deleteFile f.id <;>
            simp [updateUser, uploadFile, getFilePreview, deleteFile, hf, h1, h2, h4]
        | nil =>
          cases h4 : env.deleteFile f.id <;>
            simp [updateUser, uploadFile, getFilePreview, deleteFile, hf, h1, h2, h4]
        | undef =>
          cases h4 : env.deleteFile f.id <;>
            simp [updateUser, uploadFile, getFilePreview, deleteFile, hf, h1, h2, h4]
      | throw e => simp [updateUser, uploadFile, hf, h1]
      | nil => simp [updateUser, uploadFile, hf, h1]
      | undef => simp [updateUser, uploadFile, hf, h1]
    · cases h3 : env.updateDocument env.config.userCollectionId user.userId
          (DocPayload.userUpdateDoc user.name user.bio user.imageUrl user.imageId) <;>
        simp [updateUser, updateUserTail, hf, h3]
  · intro env user e h
    simp [createUserAccount, h]
  · intro env email pw e h
    simp [signInAccount, h]
  · intro env a n em un iu e h
    simp [saveUserToDB, h]
  · intro env e h
    simp [getAccount, h]
  · intro env e h
    simp [getCurrentUser, getAccount, h]
  · intro env e h
    simp [signOutAccount, h]
  · intro env e h
    simp [uploadFile, h]
  · intro env fid e h
    simp [deleteFile, h]
  · intro env post e h
    simp [createPost, uploadFile, h]
  · intro env term e h
    simp [searchPosts, h]
  · intro env p e h
    simp [getInfinitePosts, h]
  · intro env pid e hg h
    simp [getPostById, hg, h]
  · intro env post e hf h
    simp [updatePost, uploadFile, hf, h]
  · intro env pid iid e hg h
    simp [deletePost, hg, h]
  · intro env pid likes e h
    simp [likePost, h]
  · intro env uid pid e h
    simp [savePost, h]
  · intro env rid e h
    simp [deleteSavedPost, h]
  · intro env uid e hg h
    simp [getUserPosts, hg, h]
  · intro env e h
    simp [getRecentPosts, h]
  · intro env lim e h
    simp [getUsers, h]
  · intro env uid e h
    simp [getUserById, h]
  · intro env user e hf h
    simp [updateUser, uploadFile, hf, h]

/-- C1 amended witness: concrete instantiations — the no-throw conjunct for
`createPost` at a successful environment, and the log-and-return-undefined
conjunct for `signInAccount` at a rejecting environment. -/
theorem c1_amended_witness :
    (∃ v, (createPost env0 post0).result = .retd v) ∧
    ((signInAccount { env0 with createEmailPasswordSession := .throw .error }
        "a" "b").result = .retd .undef) :=
  ⟨c1_amended.2.2.2.2.2.2.1 env0 post0,
   (c1_amended.2.2.2.2.2.2.2.2.2.2.2.2.2.2.2.2.2.2.2.2.2.2.2.2.1
     { env0 with createEmailPasswordSession := .throw .error } "a" "b" .error rfl).1⟩

end Snapy
